import Mathlib

/-!
Verification of the ComfyUI-Nitra backend extension (nitra_server.py and
web/script_runner.py) against its natural-language specification.

The Python sources are shallowly embedded: pure helpers become Lean
functions, stateful code becomes explicit state passing, and calls into
the operating system, the network, or subprocesses are parameterized by
oracle records describing the outcome of each primitive call.  Library
primitives with no repository implementation (hashlib.sha256, base64
decoding plus JSON parsing of a JWT payload) are abstracted as function
parameters of the theorems.
-/

namespace NitraSrv

/-! ## Python string helpers

Small executable models of the Python string operations the server uses:
falsy-string fallback (`a or b`), `str.join`, `str.lower` (ASCII), and
substring membership (`needle in s`). -/

/-- Python `a or b` on strings: the empty string is falsy. -/
def pyOr (a b : String) : String := if a = "" then b else a

/-- Python `sep.join(parts)`. -/
def pyJoin (sep : String) : List String → String
  | [] => ""
  | [a] => a
  | a :: b :: rest => a ++ sep ++ pyJoin sep (b :: rest)

/-- ASCII lower-casing of one character, as CPython does for ASCII ids. -/
def lowerChar (c : Char) : Char :=
  if 'A' ≤ c ∧ c ≤ 'Z' then Char.ofNat (c.toNat + 32) else c

/-- Python `s.lower()` restricted to ASCII data. -/
def pyLower (s : String) : String := String.mk (s.data.map lowerChar)

/-- Does `pat` occur as a contiguous sublist of `l`?  Helper for `strContains`. -/
def sublistAt (pat : List Char) : List Char → Bool
  | [] => pat.isEmpty
  | c :: t => pat.isPrefixOf (c :: t) || sublistAt pat t

/-- Python `pat in s` substring membership. -/
def strContains (s pat : String) : Bool := sublistAt pat.data s.data

/-- Python `s.startswith(pre)`. -/
def pyStartsWith (s pre : String) : Bool := pre.data.isPrefixOf s.data

/-- Python slicing `s[n:]`. -/
def pyDrop (s : String) (n : Nat) : String := String.mk (s.data.drop n)

/-- Helper for `pySplitDot`: accumulate the current field until the separator. -/
def splitOnCharAux (sep : Char) (acc : List Char) : List Char → List (List Char)
  | [] => [acc.reverse]
  | c :: rest =>
      if c = sep then acc.reverse :: splitOnCharAux sep [] rest
      else splitOnCharAux sep (c :: acc) rest

/-- Python `s.split('.')`. -/
def pySplitDot (s : String) : List String := (splitOnCharAux '.' [] s.data).map String.mk

theorem isPrefixOf_append (l t : List Char) : l.isPrefixOf (l ++ t) = true := by
  induction l with
  | nil => simp [List.isPrefixOf]
  | cons c cs ih => simp [List.isPrefixOf, ih]

theorem sublistAt_of_append (pat post : List Char) :
    sublistAt pat (pat ++ post) = true := by
  cases pat with
  | nil => cases post <;> simp [sublistAt, List.isEmpty]
  | cons c cs =>
      simp only [sublistAt, List.cons_append, Bool.or_eq_true]
      exact Or.inl (isPrefixOf_append (c :: cs) post)

/-! ## C7: device fingerprint (`_collect_device_identity`, nitra_server.py 3782-3849)

The OS-reported values that the collection probes are gathered in a
`DeviceEnv` record (the oracle for `socket.gethostname`, `platform.node`,
`platform.system`, `uuid.getnode`, `_safe_read_text_file` and the
`wmic`/`ioreg` shell-outs).  `_safe_read_text_file` and
`_extract_first_value` return `None` for missing or empty data, hence the
`Option String` fields.  SHA-256 itself (`hashlib.sha256(...).hexdigest()`)
is a Python-library primitive and is passed in as a function parameter. -/

/-- Lowercase hexadecimal rendering of a natural number (Python `format(n, 'x')`). -/
def natHex (n : Nat) : String := String.mk (Nat.toDigits 16 n)

/-- Python `f"{n:012x}"`: pad the hex form with zeroes to width 12. -/
def hex12 (n : Nat) : String :=
  let s := natHex n
  String.mk (List.replicate (12 - s.length) '0') ++ s

/-- Outcomes of the OS probes performed by `_collect_device_identity`. -/
structure DeviceEnv where
  hostname : String
  machine_name : String
  osName : String
  mac_val : Nat
  machine_id : Option String
  board_serial : Option String
  product_uuid_linux : Option String
  product_uuid_windows : Option String
  baseboard_serial : Option String
  platform_uuid : Option String
  collected_at : String

/-- The nested `add_component` helper: a component is recorded only when the
probed value is truthy (a non-empty string). -/
def addComponent (name : String) (value : Option String) : List (String × String) :=
  match value with
  | none => []
  | some v => if v = "" then [] else [(name, v)]

/-- The fingerprint components collected, in source order: MAC address (only
when `uuid.getnode()` is non-zero), machine-id, then OS-specific serials. -/
def collectComponents (e : DeviceEnv) : List (String × String) :=
  (if e.mac_val ≠ 0 then [("mac_address", hex12 e.mac_val)] else [])
    ++ addComponent "machine_id" e.machine_id
    ++ (if pyLower e.osName = "linux" then
          addComponent "board_serial" e.board_serial
            ++ addComponent "product_uuid" e.product_uuid_linux
        else if pyLower e.osName = "windows" then
          addComponent "product_uuid" e.product_uuid_windows
            ++ addComponent "baseboard_serial" e.baseboard_serial
        else if pyLower e.osName = "darwin" then
          addComponent "platform_uuid" e.platform_uuid
        else [])

/-- Render one component the way the source does: `f"{name}:{value}"`. -/
def componentStr (c : String × String) : String := c.1 ++ ":" ++ c.2

/-- The identity dictionary fields that matter for the fingerprint. -/
structure DeviceIdentity where
  machine_name : String
  hostname : String
  fingerprint_components : List (String × String)
  fingerprint_source : String
  fingerprint_hash : String
  collected_at : String

/-- Shallow embedding of `_collect_device_identity`, parameterized by the
SHA-256 hex digest function. -/
def collectDeviceIdentity (sha256hex : String → String) (e : DeviceEnv) : DeviceIdentity :=
  let machineName := pyOr e.machine_name e.hostname
  let comps := collectComponents e
  let source := pyOr (pyJoin "||" (comps.map componentStr))
    (pyOr machineName (pyOr e.hostname "unknown-device"))
  { machine_name := machineName
    hostname := e.hostname
    fingerprint_components := comps
    fingerprint_source := source
    fingerprint_hash := sha256hex source
    collected_at := e.collected_at }

/-- The hardware-identifier part of the environment: everything except the
collection timestamp. -/
def identFields (e : DeviceEnv) : String × String × String × Nat × Option String ×
    Option String × Option String × Option String × Option String × Option String :=
  (e.hostname, e.machine_name, e.osName, e.mac_val, e.machine_id, e.board_serial,
   e.product_uuid_linux, e.product_uuid_windows, e.baseboard_serial, e.platform_uuid)

theorem componentStr_ne_empty (c : String × String) : componentStr c ≠ "" := by
  intro h
  have hl : (componentStr c).length = 0 := by rw [h]; rfl
  simp only [componentStr, String.length_append] at hl
  have hc : (":" : String).length = 1 := rfl
  omega

theorem append_ne_empty_left (a b : String) (ha : a ≠ "") : a ++ b ≠ "" := by
  intro h
  have hl : (a ++ b).length = 0 := by rw [h]; rfl
  rw [String.length_append] at hl
  apply ha
  have : a.length = 0 := by omega
  cases a with
  | mk data =>
      cases data with
      | nil => rfl
      | cons c cs => simp [String.length] at this

theorem pyJoin_cons_ne_empty (sep : String) (a : String) (rest : List String)
    (ha : a ≠ "") : pyJoin sep (a :: rest) ≠ "" := by
  cases rest with
  | nil => simpa [pyJoin] using ha
  | cons b t =>
      simp only [pyJoin]
      exact append_ne_empty_left _ _ (append_ne_empty_left _ _ ha)

theorem pyOr_chain (a b c : String) : pyOr (pyOr a b) (pyOr b c) = pyOr a (pyOr b c) := by
  by_cases h1 : a = "" <;> by_cases h2 : b = "" <;> simp [pyOr, h1, h2]

/-- C7: the device fingerprint produced by `_collect_device_identity` is the
SHA-256 hex digest of the double-bar-joined name:value components when any
were collected; with no components it falls back to hashing the machine name,
else the hostname, else the literal string unknown-device; and it is a
deterministic function of the reported hardware identifiers (the collection
timestamp does not influence it). -/
theorem c7_device_fingerprint (sha : String → String) (e e' : DeviceEnv)
    (hid : identFields e = identFields e') :
    (collectComponents e ≠ [] →
       (collectDeviceIdentity sha e).fingerprint_hash
         = sha (pyJoin "||" ((collectComponents e).map componentStr)))
    ∧ (collectComponents e = [] →
       (collectDeviceIdentity sha e).fingerprint_hash
         = sha (pyOr e.machine_name (pyOr e.hostname "unknown-device")))
    ∧ (collectDeviceIdentity sha e).fingerprint_hash
        = (collectDeviceIdentity sha e').fingerprint_hash := by
  refine ⟨?_, ?_, ?_⟩
  · intro hne
    have hj : pyJoin "||" ((collectComponents e).map componentStr) ≠ "" := by
      cases hc : collectComponents e with
      | nil => exact absurd hc hne
      | cons c rest =>
          simpa using
            pyJoin_cons_ne_empty "||" (componentStr c) (rest.map componentStr)
              (componentStr_ne_empty c)
    simp [collectDeviceIdentity, pyOr, hj]
  · intro hc
    simp [collectDeviceIdentity, hc, pyJoin, pyOr_chain]
    simp [pyOr]
  · cases e with
    | mk h1 m1 o1 mv1 mi1 bs1 pl1 pw1 bb1 pu1 ca1 =>
        cases e' with
        | mk h2 m2 o2 mv2 mi2 bs2 pl2 pw2 bb2 pu2 ca2 =>
            simp only [identFields, Prod.mk.injEq] at hid
            obtain ⟨e1, e2, e3, e4, e5, e6, e7, e8, e9, e10⟩ := hid
            subst e1; subst e2; subst e3; subst e4; subst e5
            subst e6; subst e7; subst e8; subst e9; subst e10
            rfl

/-- Witness for C7 at a concrete pair of environments that differ only in
their collection timestamp. -/
theorem c7_device_fingerprint_witness :
    identFields
        { hostname := "host-a", machine_name := "machine-a", osName := "Linux",
          mac_val := 1, machine_id := some "mid", board_serial := none,
          product_uuid_linux := none, product_uuid_windows := none,
          baseboard_serial := none, platform_uuid := none,
          collected_at := "2026-01-01" }
      = identFields
        { hostname := "host-a", machine_name := "machine-a", osName := "Linux",
          mac_val := 1, machine_id := some "mid", board_serial := none,
          product_uuid_linux := none, product_uuid_windows := none,
          baseboard_serial := none, platform_uuid := none,
          collected_at := "2026-02-02" }
    ∧ collectComponents
        { hostname := "host-a", machine_name := "machine-a", osName := "Linux",
          mac_val := 1, machine_id := some "mid", board_serial := none,
          product_uuid_linux := none, product_uuid_windows := none,
          baseboard_serial := none, platform_uuid := none,
          collected_at := "2026-01-01" } ≠ []
    ∧ (collectDeviceIdentity id
        { hostname := "host-a", machine_name := "machine-a", osName := "Linux",
          mac_val := 1, machine_id := some "mid", board_serial := none,
          product_uuid_linux := none, product_uuid_windows := none,
          baseboard_serial := none, platform_uuid := none,
          collected_at := "2026-01-01" }).fingerprint_hash
        = "mac_address:000000000001||machine_id:mid" := by
  refine ⟨rfl, by decide, ?_⟩
  have h := (c7_device_fingerprint id
    { hostname := "host-a", machine_name := "machine-a", osName := "Linux",
      mac_val := 1, machine_id := some "mid", board_serial := none,
      product_uuid_linux := none, product_uuid_windows := none,
      baseboard_serial := none, platform_uuid := none,
      collected_at := "2026-01-01" }
    { hostname := "host-a", machine_name := "machine-a", osName := "Linux",
      mac_val := 1, machine_id := some "mid", board_serial := none,
      product_uuid_linux := none, product_uuid_windows := none,
      baseboard_serial := none, platform_uuid := none,
      collected_at := "2026-02-02" } rfl).1 (by decide)
  rw [h]
  decide

/-! ## C8: update-status route and JWT payload extraction
(`get_update_status`, nitra_server.py 1857-1926)

The handler checks the bearer header, then — only when no `userEmail` query
parameter is given — splits the token on dots, pads the middle segment with
equals signs, base64-decodes it and parses JSON, and reads the email or
user_email field.  `base64.b64decode` composed with `json.loads` (both
Python-library primitives) is abstracted as a `decodePayload` parameter that
yields `none` whenever either step raises. -/

/-- The fields of a decoded JWT payload dictionary that the route reads. -/
structure JwtPayload where
  email : Option String
  user_email : Option String

/-- The padding step: `payload_b64 += '=' * (4 - len(payload_b64) % 4)`. -/
def padBase64 (s : String) : String :=
  s ++ String.mk (List.replicate (4 - s.length % 4) '=')

/-- Python `payload.get('email') or payload.get('user_email', '')`: a missing
or empty email falls through to user_email (defaulting to the empty string). -/
def emailFromPayload (p : JwtPayload) : String :=
  match p.email with
  | some e => if e = "" then p.user_email.getD "" else e
  | none => p.user_email.getD ""

/-- Responses the update-status route can produce. -/
inductive UpdateResp where
  | err (status : Nat) (msg : String)
  | info (v : String)
  | noneFound
deriving DecidableEq

/-- Shallow embedding of the `/nitra/status/update` handler.  `activeUpdates`
is the `nitra_active_updates` dictionary (user email to status record). -/
def getUpdateStatus (decodePayload : String → Option JwtPayload)
    (authHeader queryEmail : String) (activeUpdates : List (String × String)) : UpdateResp :=
  if ¬ pyStartsWith authHeader "Bearer " then
    UpdateResp.err 401 "Missing or invalid authorization header"
  else
    let accessToken := pyDrop authHeader 7
    if accessToken = "" then UpdateResp.err 401 "Missing access token"
    else
      let emailStep : Except UpdateResp String :=
        if queryEmail ≠ "" then Except.ok queryEmail
        else
          match pySplitDot accessToken with
          | [_, payloadB64, _] =>
              match decodePayload (padBase64 payloadB64) with
              | none => Except.error (UpdateResp.err 401 "Invalid token")
              | some p => Except.ok (emailFromPayload p)
          | _ => Except.error (UpdateResp.err 401 "Invalid token format")
      match emailStep with
      | Except.error r => r
      | Except.ok userEmail =>
          match activeUpdates.find? (fun kv => kv.1 = userEmail) with
          | some kv => UpdateResp.info kv.2
          | none => UpdateResp.noneFound

/-- Lookup step shared by the statements below. -/
def lookupUpdate (activeUpdates : List (String × String)) (userEmail : String) : UpdateResp :=
  match activeUpdates.find? (fun kv => kv.1 = userEmail) with
  | some kv => UpdateResp.info kv.2
  | none => UpdateResp.noneFound

/-- C8: with no userEmail query parameter, the email used by the
update-status route comes from decoding the second dot-separated segment of
the bearer token after equals-padding, reading email or user_email; a token
without exactly three dot-separated parts, or an undecodable payload, gives a
401; and no part of the outcome depends on the signature (third) or header
(first) segment — only on the decoded payload segment. -/
theorem c8_jwt_payload_extraction (decodePayload : String → Option JwtPayload)
    (auth tok : String) (au : List (String × String))
    (hpre : pyStartsWith auth "Bearer " = true) (hdrop : pyDrop auth 7 = tok)
    (hne : tok ≠ "") :
    ((∀ a p b, pySplitDot tok = [a, p, b] →
        getUpdateStatus decodePayload auth "" au
          = (match decodePayload (padBase64 p) with
             | none => UpdateResp.err 401 "Invalid token"
             | some pl => lookupUpdate au (emailFromPayload pl)))
     ∧ ((pySplitDot tok).length ≠ 3 →
        getUpdateStatus decodePayload auth "" au
          = UpdateResp.err 401 "Invalid token format")) := by
  constructor
  · intro a p b hsplit
    simp only [getUpdateStatus, hpre, hdrop, hsplit, not_true, if_neg hne]
    cases decodePayload (padBase64 p) <;> simp [lookupUpdate]
  · intro hlen
    simp only [getUpdateStatus, hpre, hdrop, not_true, if_neg hne]
    cases hs : pySplitDot tok with
    | nil => simp
    | cons x xs =>
        cases xs with
        | nil => simp
        | cons y ys =>
            cases ys with
            | nil => simp
            | cons z zs =>
                cases zs with
                | nil => exact absurd (by rw [hs]; rfl) hlen
                | cons w ws => simp

/-- Witness for C8 at a concrete three-part token and a decoder that accepts
the padded middle segment. -/
theorem c8_jwt_payload_extraction_witness :
    pyStartsWith "Bearer hh.pp.sig" "Bearer " = true
    ∧ pyDrop "Bearer hh.pp.sig" 7 = "hh.pp.sig"
    ∧ ("hh.pp.sig" : String) ≠ ""
    ∧ pySplitDot "hh.pp.sig" = ["hh", "pp", "sig"]
    ∧ getUpdateStatus
        (fun s => if s = padBase64 "pp" then
            some { email := some "u@x.io", user_email := none } else none)
        "Bearer hh.pp.sig" "" [("u@x.io", "running")]
        = UpdateResp.info "running" := by
  refine ⟨by decide, by decide, by decide, by decide, ?_⟩
  have h := (c8_jwt_payload_extraction
    (fun s => if s = padBase64 "pp" then
        some { email := some "u@x.io", user_email := none } else none)
    "Bearer hh.pp.sig" "hh.pp.sig" [("u@x.io", "running")]
    (by decide) (by decide) (by decide)).1 "hh" "pp" "sig" (by decide)
  rw [h]
  decide

/-! ## C4: `_terminate_child_process` (nitra_server.py 474-494)

The tracked `subprocess.Popen` object is modeled by an oracle giving the
result of `poll()` and the outcome of each termination primitive.  A
`wait(timeout=5)` that exceeds the timeout raises `TimeoutExpired`, which the
code treats like any other exception, so a timeout is folded into the
`raises` outcome. -/

/-- Outcome of one Python call: it returns normally or raises (for `wait`,
this includes `TimeoutExpired`). -/
inductive POutcome where
  | ok
  | raises
deriving DecidableEq

/-- Oracle describing a tracked child process and how its termination
primitives behave. -/
structure ProcO where
  poll : Option Int
  isWindows : Bool
  ctrlBreak : POutcome
  waitAfterBreak : POutcome
  terminateCall : POutcome
  waitAfterTerm : POutcome

/-- Primitive process-control calls issued by `_terminate_child_process`. -/
inductive PAction where
  | sendCtrlBreak
  | wait (timeout : Nat)
  | terminateProc
  | killProc
deriving DecidableEq

/-- Result of running `_terminate_child_process`: the calls made, and whether
an exception escaped to the caller. -/
structure TermResult where
  actions : List PAction
  propagates : Bool
deriving DecidableEq

/-- The escalation step: `proc.kill()` inside its own try/except, so its
exception never escapes. -/
def killStep (pre : List PAction) : TermResult :=
  { actions := pre ++ [PAction.killProc], propagates := false }

/-- The `proc.terminate(); proc.wait(timeout=5)` phase with the surrounding
try/except that escalates to `kill()` on any exception. -/
def terminatePhase (o : ProcO) (pre : List PAction) : TermResult :=
  match o.terminateCall with
  | POutcome.raises => killStep (pre ++ [PAction.terminateProc])
  | POutcome.ok =>
      match o.waitAfterTerm with
      | POutcome.ok =>
          { actions := pre ++ [PAction.terminateProc, PAction.wait 5], propagates := false }
      | POutcome.raises => killStep (pre ++ [PAction.terminateProc, PAction.wait 5])

/-- Shallow embedding of `_terminate_child_process` on a live process object. -/
def terminateChildProcess (o : ProcO) : TermResult :=
  if o.poll ≠ none then { actions := [], propagates := false }
  else if o.isWindows then
    match o.ctrlBreak with
    | POutcome.raises => terminatePhase o [PAction.sendCtrlBreak]
    | POutcome.ok =>
        match o.waitAfterBreak with
        | POutcome.ok =>
            { actions := [PAction.sendCtrlBreak, PAction.wait 5], propagates := false }
        | POutcome.raises => terminatePhase o [PAction.sendCtrlBreak, PAction.wait 5]
  else terminatePhase o []

/-- The `proc is None` guard of the source: entries may track no process at all. -/
def terminateChild (p : Option ProcO) : TermResult :=
  match p with
  | none => { actions := [], propagates := false }
  | some o => terminateChildProcess o

/-- C4: `_terminate_child_process` is a no-op once `poll()` reports an exit;
otherwise it tries CTRL_BREAK (Windows) and `terminate()` with waits of
exactly 5 seconds, escalates to `kill()` only when the graceful
terminate/wait raised or timed out, and never propagates an exception. -/
theorem c4_terminate_child_process (o : ProcO) :
    ((terminateChildProcess o).propagates = false)
    ∧ (o.poll ≠ none → (terminateChildProcess o).actions = [])
    ∧ (∀ t, PAction.wait t ∈ (terminateChildProcess o).actions → t = 5)
    ∧ (PAction.killProc ∈ (terminateChildProcess o).actions →
        o.terminateCall = POutcome.raises ∨ o.waitAfterTerm = POutcome.raises)
    ∧ (o.poll = none → o.isWindows = true → o.ctrlBreak = POutcome.ok →
        o.waitAfterBreak = POutcome.ok →
        (terminateChildProcess o).actions = [PAction.sendCtrlBreak, PAction.wait 5]) := by
  cases o with
  | mk poll isWindows ctrlBreak waitAfterBreak terminateCall waitAfterTerm =>
      cases poll <;> cases isWindows <;> cases ctrlBreak <;> cases waitAfterBreak <;>
        cases terminateCall <;> cases waitAfterTerm <;>
        simp_all [terminateChildProcess, terminatePhase, killStep]

/-- Witness for C4: a live non-Windows process whose terminate raises, so the
code escalates to kill without propagating. -/
theorem c4_terminate_child_process_witness :
    (terminateChildProcess
        { poll := none, isWindows := false, ctrlBreak := POutcome.ok,
          waitAfterBreak := POutcome.ok, terminateCall := POutcome.raises,
          waitAfterTerm := POutcome.ok }).propagates = false
    ∧ PAction.killProc ∈ (terminateChildProcess
        { poll := none, isWindows := false, ctrlBreak := POutcome.ok,
          waitAfterBreak := POutcome.ok, terminateCall := POutcome.raises,
          waitAfterTerm := POutcome.ok }).actions
    ∧ ({ poll := none, isWindows := false, ctrlBreak := POutcome.ok,
          waitAfterBreak := POutcome.ok, terminateCall := POutcome.raises,
          waitAfterTerm := POutcome.ok } : ProcO).terminateCall = POutcome.raises
    ∧ (terminateChildProcess
        { poll := some 0, isWindows := false, ctrlBreak := POutcome.ok,
          waitAfterBreak := POutcome.ok, terminateCall := POutcome.ok,
          waitAfterTerm := POutcome.ok }).actions = [] := by
  refine ⟨(c4_terminate_child_process _).1, by decide, by decide, ?_⟩
  exact (c4_terminate_child_process
    { poll := some 0, isWindows := false, ctrlBreak := POutcome.ok,
      waitAfterBreak := POutcome.ok, terminateCall := POutcome.ok,
      waitAfterTerm := POutcome.ok }).2.1 (by decide)

/-! ## C5: shutdown cleanup (`_cleanup_running_processes`, `_join_thread_safely`,
nitra_server.py 497-525, with the hooks at 528-582)

The shared `running_processes` map and `tasks_in_progress` set are modeled as
lists; the function snapshots and clears them under the lock, then walks the
snapshot terminating processes, joining the reader threads with
`join(timeout=1)`, and invoking each tracked script runner's `cleanup()`
inside try/except. -/

/-- A reader thread as seen by `_join_thread_safely`: only liveness matters. -/
structure ThreadO where
  alive : Bool
deriving DecidableEq

/-- One `running_processes` entry (the dict stored at task start). -/
structure ProcEntry where
  process : Option ProcO
  stdout_thread : Option ThreadO
  stderr_thread : Option ThreadO
  script_runner : Bool

/-- Server-global state touched by the shutdown cleanup. -/
structure SrvState where
  running_processes : List (String × ProcEntry)
  tasks_in_progress : List (String × String)

/-- Calls issued while cleaning up one entry. -/
inductive CAction where
  | termInvoke (tid : String) (sub : List PAction)
  | joinThread (tid : String) (timeout : Nat)
  | runnerCleanup (tid : String)
deriving DecidableEq

/-- Embedding of `_join_thread_safely`: join only live threads, with a
1-second timeout, swallowing exceptions. -/
def joinThreadSafely (tid : String) (t : Option ThreadO) : List CAction :=
  match t with
  | none => []
  | some th => if th.alive then [CAction.joinThread tid 1] else []

/-- Cleanup of a single snapshot entry, in source order: terminate the
process, join stdout/stderr readers, then the script runner's cleanup. -/
def cleanupEntry (tid : String) (e : ProcEntry) : List CAction :=
  [CAction.termInvoke tid (terminateChild e.process).actions]
    ++ joinThreadSafely tid e.stdout_thread
    ++ joinThreadSafely tid e.stderr_thread
    ++ (if e.script_runner then [CAction.runnerCleanup tid] else [])

/-- Embedding of `_cleanup_running_processes`: snapshot and clear both shared
structures under the lock, then clean each snapshot entry. -/
def cleanupRunningProcesses (s : SrvState) : SrvState × List CAction :=
  ({ running_processes := [], tasks_in_progress := [] },
   s.running_processes.flatMap (fun kv => cleanupEntry kv.1 kv.2))

/-- The aiohttp `on_shutdown` callback registered by
`_register_promptserver_shutdown` simply runs the cleanup. -/
def aiohttpCleanupCallback (s : SrvState) : SrvState × List CAction :=
  cleanupRunningProcesses s

/-- The atexit hook registered by `_register_shutdown_handlers`. -/
def atexitHook (s : SrvState) : SrvState × List CAction :=
  cleanupRunningProcesses s

/-- The signal handler installed for SIGINT/SIGTERM/SIGBREAK: it runs the
cleanup first, then chains to the previous handler or exits. -/
def handleSignalCleanup (s : SrvState) : SrvState × List CAction :=
  cleanupRunningProcesses s

/-- Every action emitted by `_join_thread_safely` is a join with timeout 1. -/
theorem mem_joinThreadSafely (tid : String) (th : Option ThreadO) (a : CAction)
    (h : a ∈ joinThreadSafely tid th) : a = CAction.joinThread tid 1 := by
  cases th with
  | none => simp [joinThreadSafely] at h
  | some t0 =>
      simp only [joinThreadSafely] at h
      by_cases hb : t0.alive
      · simp [hb] at h
        exact h
      · simp [hb] at h

/-- C5: every shutdown hook funnels into `_cleanup_running_processes`, which
attempts termination of every tracked subprocess, joins reader threads with a
timeout of exactly 1 second (so completion of the join is not guaranteed),
invokes every tracked script runner's cleanup, and leaves both
`running_processes` and `tasks_in_progress` empty. -/
theorem c5_shutdown_cleanup (s : SrvState) :
    (aiohttpCleanupCallback s = cleanupRunningProcesses s
      ∧ atexitHook s = cleanupRunningProcesses s
      ∧ handleSignalCleanup s = cleanupRunningProcesses s)
    ∧ (cleanupRunningProcesses s).1.running_processes = []
    ∧ (cleanupRunningProcesses s).1.tasks_in_progress = []
    ∧ (∀ kv ∈ s.running_processes,
        CAction.termInvoke kv.1 (terminateChild kv.2.process).actions
          ∈ (cleanupRunningProcesses s).2)
    ∧ (∀ tid t, CAction.joinThread tid t ∈ (cleanupRunningProcesses s).2 → t = 1)
    ∧ (∀ kv ∈ s.running_processes, kv.2.script_runner = true →
        CAction.runnerCleanup kv.1 ∈ (cleanupRunningProcesses s).2) := by
  refine ⟨⟨rfl, rfl, rfl⟩, rfl, rfl, ?_, ?_, ?_⟩
  · intro kv hkv
    simp only [cleanupRunningProcesses, List.mem_flatMap]
    exact ⟨kv, hkv, by simp [cleanupEntry]⟩
  · intro tid t hmem
    simp only [cleanupRunningProcesses, List.mem_flatMap] at hmem
    obtain ⟨kv, _, hin⟩ := hmem
    simp only [cleanupEntry, List.mem_append, List.mem_singleton] at hin
    rcases hin with ((h | h) | h) | h
    · exact absurd h (by simp)
    · have h1 := mem_joinThreadSafely _ _ _ h
      simp only [CAction.joinThread.injEq] at h1
      exact h1.2
    · have h1 := mem_joinThreadSafely _ _ _ h
      simp only [CAction.joinThread.injEq] at h1
      exact h1.2
    · by_cases hr : kv.2.script_runner = true
      · rw [if_pos hr] at h
        simp at h
      · rw [if_neg hr] at h
        simp at h
  · intro kv hkv hr
    simp only [cleanupRunningProcesses, List.mem_flatMap]
    exact ⟨kv, hkv, by simp [cleanupEntry, hr]⟩

/-- Concrete process oracle used by the C5 witness. -/
def c5WitnessProc : ProcO :=
  { poll := none, isWindows := false, ctrlBreak := POutcome.ok,
    waitAfterBreak := POutcome.ok, terminateCall := POutcome.ok,
    waitAfterTerm := POutcome.ok }

/-- Concrete tracked entry used by the C5 witness. -/
def c5WitnessEntry : String × ProcEntry :=
  ("workflow_u1",
   { process := some c5WitnessProc, stdout_thread := some { alive := true },
     stderr_thread := some { alive := false }, script_runner := true })

/-- Concrete server state used by the C5 witness: one live process, a live
stdout reader, a finished stderr reader, and a tracked script runner. -/
def c5WitnessState : SrvState :=
  { running_processes := [c5WitnessEntry],
    tasks_in_progress := [("workflow", "workflow_u1")] }

/-- Witness for C5 on a concrete state with one live process, one live
reader thread, and a tracked script runner. -/
theorem c5_shutdown_cleanup_witness :
    (cleanupRunningProcesses c5WitnessState).1.running_processes = []
    ∧ (cleanupRunningProcesses c5WitnessState).1.tasks_in_progress = []
    ∧ CAction.runnerCleanup "workflow_u1" ∈ (cleanupRunningProcesses c5WitnessState).2
    ∧ CAction.joinThread "workflow_u1" 1 ∈ (cleanupRunningProcesses c5WitnessState).2 := by
  refine ⟨(c5_shutdown_cleanup c5WitnessState).2.1,
    (c5_shutdown_cleanup c5WitnessState).2.2.1,
    (c5_shutdown_cleanup c5WitnessState).2.2.2.2.2 c5WitnessEntry
      (by simp [c5WitnessState]) rfl,
    by decide⟩

/-! ## C6: `ScriptRunner.run_script_with_cleanup`
(web/script_runner.py 24-324)

The runner instance carries `access_token`, `configs_url`, `temp_dir` and
`script_path` (`__init__` sets the last two to `None`).  The filesystem is a
list of existing paths; `tempfile.mkdtemp` adds a directory,
`shutil.rmtree` removes the directory and everything under it.  The network
and subprocess primitives are oracle fields; each `Bool`/`Except` outcome
stands for the try/except branch the source takes. -/

/-- The `ScriptRunner` instance attributes that drive control flow. -/
structure ScriptRunner where
  access_token : Option String
  configs_url : Option String
  temp_dir : Option String
  script_path : Option String

/-- The constructor state: `__init__` leaves `temp_dir` and `script_path`
as `None`. -/
def initRunner (tok cfg : Option String) : ScriptRunner :=
  { access_token := tok, configs_url := cfg, temp_dir := none, script_path := none }

/-- Oracle for one `run_script_with_cleanup` invocation. -/
structure RunnerO where
  mkdtempResult : Option String
  presignOk : Bool
  fetchOk : Bool
  runOutcome : Except Unit Int
  rmtreeOk : Bool

/-- Existence check against the path list (models `os.path.exists`). -/
def fsContains : List String → String → Bool
  | [], _ => false
  | q :: rest, p => (q = p) || fsContains rest p

/-- Python `shutil.rmtree(d)`: the directory and everything below it vanish. -/
def rmtree (fs : List String) (d : String) : List String :=
  fs.filter (fun p => ! pyStartsWith p d)

/-- Result of `download_script`. -/
structure DLResult where
  ok : Bool
  runner : ScriptRunner
  fs : List String

/-- Embedding of `download_script(script_name, local_test=False)` followed by
`_download_script_from_s3`: create the temp directory, check `configs_url`
and the access token, fetch the presigned URL, then download the script into
`temp_dir` and record `script_path`.  Every failure returns `False` with the
state reached so far (all exceptions are caught and logged). -/
def downloadScript (o : RunnerO) (name : String) (r : ScriptRunner)
    (fs : List String) : DLResult :=
  match o.mkdtempResult with
  | none => { ok := false, runner := r, fs := fs }
  | some d =>
      let r1 := { r with temp_dir := some d }
      let fs1 := d :: fs
      match r1.configs_url with
      | none => { ok := false, runner := r1, fs := fs1 }
      | some _ =>
          match r1.access_token with
          | none => { ok := false, runner := r1, fs := fs1 }
          | some _ =>
              if o.presignOk then
                let p := d ++ "/" ++ name ++ ".py"
                let r2 := { r1 with script_path := some p }
                if o.fetchOk then { ok := true, runner := r2, fs := p :: fs1 }
                else { ok := false, runner := r2, fs := fs1 }
              else { ok := false, runner := r1, fs := fs1 }

/-- The dictionary `run_script` returns (the fields the callers read). -/
structure ScriptResult where
  success : Bool
  error : String
  return_code : Int
deriving DecidableEq

/-- Embedding of `run_script`: missing script path (or file) short-circuits;
otherwise the subprocess outcome decides success, and any exception is caught
and converted into a failure dictionary. -/
def runScript (o : RunnerO) (r : ScriptRunner) (fs : List String) : ScriptResult :=
  match r.script_path with
  | none => { success := false, error := "Script not available", return_code := 0 }
  | some p =>
      if fsContains fs p then
        match o.runOutcome with
        | Except.error _ => { success := false, error := "exception", return_code := -1 }
        | Except.ok rc =>
            { success := decide (rc = 0), error := "", return_code := rc }
      else { success := false, error := "Script not available", return_code := 0 }

/-- Embedding of `cleanup`: when a temp directory is recorded and still
exists, remove it and reset both fields; a failing `rmtree` is caught and
leaves the fields untouched. -/
def scriptRunnerCleanup (o : RunnerO) (r : ScriptRunner) (fs : List String) :
    ScriptRunner × List String :=
  match r.temp_dir with
  | none => (r, fs)
  | some d =>
      if fsContains fs d then
        if o.rmtreeOk then
          ({ r with temp_dir := none, script_path := none }, rmtree fs d)
        else (r, fs)
      else (r, fs)

/-- Final state of one `run_script_with_cleanup` call. -/
structure RunnerFinal where
  result : ScriptResult
  runner : ScriptRunner
  fs : List String

/-- The failure dictionary returned when the download step fails. -/
def downloadFailResult (name : String) : ScriptResult :=
  { success := false, error := "Failed to download script: " ++ name, return_code := 0 }

/-- Embedding of `run_script_with_cleanup`: download, run, and — in a
`finally` block — always clean up. -/
def runScriptWithCleanup (o : RunnerO) (name : String) (r : ScriptRunner)
    (fs : List String) : RunnerFinal :=
  let dl := downloadScript o name r fs
  let res := if dl.ok then runScript o dl.runner dl.fs else downloadFailResult name
  let c := scriptRunnerCleanup o dl.runner dl.fs
  { result := res, runner := c.1, fs := c.2 }

theorem isPrefixOf_self (l : List Char) : l.isPrefixOf l = true := by
  have h := isPrefixOf_append l []
  rwa [List.append_nil] at h

theorem pyStartsWith_self (s : String) : pyStartsWith s s = true := by
  simp [pyStartsWith, isPrefixOf_self]

theorem rmtree_not_contains_self (fs : List String) (d : String) :
    fsContains (rmtree fs d) d = false := by
  induction fs with
  | nil => rfl
  | cons q rest ih =>
      rw [rmtree, List.filter_cons]
      by_cases hq : pyStartsWith q d = true
      · simpa [hq, rmtree] using ih
      · have hq2 : pyStartsWith q d = false := by
          cases hb : pyStartsWith q d
          · rfl
          · exact absurd hb hq
        have hqd : q ≠ d := by
          intro h
          rw [h, pyStartsWith_self d] at hq2
          cases hq2
        rw [hq2]
        simp only [Bool.not_false, if_pos, fsContains, hqd, decide_eq_true_eq,
          Bool.false_or, decide_eq_false hqd]
        simpa [rmtree] using ih

/-- C6: whatever happens inside `run_script_with_cleanup` on a freshly
constructed runner — mkdtemp raising, a failed download, a non-zero exit, or
an exception while running — the `finally` block runs `cleanup()` before the
call returns, so (as long as `shutil.rmtree` itself succeeds) the temporary
directory no longer exists afterwards and both `temp_dir` and `script_path`
are reset to `None`. -/
theorem c6_run_script_with_cleanup (o : RunnerO) (name : String)
    (tok cfg : Option String) (fs : List String) (hrm : o.rmtreeOk = true) :
    (runScriptWithCleanup o name (initRunner tok cfg) fs).runner.temp_dir = none
    ∧ (runScriptWithCleanup o name (initRunner tok cfg) fs).runner.script_path = none
    ∧ (∀ d, o.mkdtempResult = some d →
        fsContains (runScriptWithCleanup o name (initRunner tok cfg) fs).fs d = false) := by
  cases hmk : o.mkdtempResult with
  | none =>
      refine ⟨?_, ?_, ?_⟩ <;>
        simp [runScriptWithCleanup, downloadScript, scriptRunnerCleanup, initRunner, hmk]
  | some d =>
      have hd : fsContains (d :: fs) d = true := by simp [fsContains]
      cases tok with
      | none =>
          refine ⟨?_, ?_, ?_⟩ <;>
            cases cfg <;>
              simp [runScriptWithCleanup, downloadScript, scriptRunnerCleanup,
                initRunner, hmk, hrm, hd, rmtree_not_contains_self]
      | some tk =>
          cases cfg with
          | none =>
              refine ⟨?_, ?_, ?_⟩ <;>
                simp [runScriptWithCleanup, downloadScript, scriptRunnerCleanup,
                  initRunner, hmk, hrm, hd, rmtree_not_contains_self]
          | some cf =>
              have hd2 : fsContains ((d ++ "/" ++ name ++ ".py") :: d :: fs) d = true := by
                simp [fsContains]
              cases hps : o.presignOk <;> cases hf : o.fetchOk <;>
                refine ⟨?_, ?_, ?_⟩ <;>
                  simp [runScriptWithCleanup, downloadScript, scriptRunnerCleanup,
                    initRunner, hmk, hrm, hd, hd2, hps, hf, rmtree_not_contains_self]

/-- Witness for C6: a concrete oracle where the download succeeds but the
script exits with code 3; the temp directory is gone afterwards. -/
theorem c6_run_script_with_cleanup_witness :
    ({ mkdtempResult := some "/tmp/sr1", presignOk := true, fetchOk := true,
       runOutcome := Except.ok 3, rmtreeOk := true } : RunnerO).rmtreeOk = true
    ∧ (runScriptWithCleanup
        { mkdtempResult := some "/tmp/sr1", presignOk := true, fetchOk := true,
          runOutcome := Except.ok 3, rmtreeOk := true }
        "windows_triton" (initRunner (some "tok") (some "url"))
        ["/base"]).runner.temp_dir = none
    ∧ fsContains (runScriptWithCleanup
        { mkdtempResult := some "/tmp/sr1", presignOk := true, fetchOk := true,
          runOutcome := Except.ok 3, rmtreeOk := true }
        "windows_triton" (initRunner (some "tok") (some "url"))
        ["/base"]).fs "/tmp/sr1" = false
    ∧ (runScriptWithCleanup
        { mkdtempResult := some "/tmp/sr1", presignOk := true, fetchOk := true,
          runOutcome := Except.ok 3, rmtreeOk := true }
        "windows_triton" (initRunner (some "tok") (some "url"))
        ["/base"]).result.success = false := by
  refine ⟨rfl, (c6_run_script_with_cleanup _ _ _ _ _ rfl).1, ?_, by decide⟩
  exact (c6_run_script_with_cleanup _ "windows_triton" (some "tok") (some "url")
    ["/base"] rfl).2.2 "/tmp/sr1" rfl

/-! ## C3: cancelling a script task started via `/nitra/execute/script`
(`cancel_execution` nitra_server.py 1319-1408, `execute_script` 1753-1758,
`ScriptRunner` web/script_runner.py 24-324)

The `ScriptRunner` class body defines exactly the methods listed below and
`__init__` assigns exactly the instance attributes listed below; Python
attribute lookup on anything else raises `AttributeError`.  The
execute-script route tracks its background task with a `running_processes`
entry whose `process` field is literally `None`. -/

/-- The methods defined in the `ScriptRunner` class body. -/
def scriptRunnerMethodNames : List String :=
  ["__init__", "_load_config", "download_script", "_use_local_script",
   "_download_script_from_s3", "run_script", "cleanup", "run_script_with_cleanup"]

/-- The instance attributes assigned in `ScriptRunner.__init__`. -/
def scriptRunnerAttrNames : List String :=
  ["logger", "access_token", "temp_dir", "script_path", "config", "configs_url"]

/-- Membership in a list of names (Python attribute lookup). -/
def nameIn : List String → String → Bool
  | [], _ => false
  | q :: rest, p => (q = p) || nameIn rest p

/-- Python `hasattr(runner, name)` for a `ScriptRunner` instance. -/
def scriptRunnerHasAttr (name : String) : Bool :=
  nameIn scriptRunnerMethodNames name || nameIn scriptRunnerAttrNames name

/-- One `running_processes` entry as read by `cancel_execution`. -/
structure CEntry where
  process : Option ProcO
  script_runner : Option ScriptRunner

/-- The cancellation filter of `cancel_execution`: substring match on the
lower-cased task id. -/
def shouldCancel (tid : String) : Bool :=
  strContains (pyLower tid) "script" || strContains (pyLower tid) "workflow"
    || strContains (pyLower tid) "install" || strContains (pyLower tid) "model"

/-- Calls observable while `cancel_execution` runs. -/
inductive XAction where
  | procTermInvoke (tid : String) (sub : List PAction)
  | attrErrorSwallowed (tid : String)
  | runnerTerminate (tid : String)
  | runnerCleanupCall (tid : String)
deriving DecidableEq

/-- State touched by `cancel_execution`: the process map, the filesystem (for
the runners' temp directories), and the pending task queue. -/
structure CancelState where
  running_processes : List (String × CEntry)
  fs : List String
  queue : List (String × String)

/-- First phase per matching entry: terminate a live tracked process (there
is none for script tasks), then call `script_runner.terminate()` — a method
`ScriptRunner` does not define, so the call raises `AttributeError`, which
the bare `except Exception: pass` swallows. -/
def cancelEntryPhase1 (tid : String) (e : CEntry) : List XAction :=
  (match e.process with
   | some p =>
       if p.poll = none then
         [XAction.procTermInvoke tid (terminateChildProcess p).actions]
       else []
   | none => []) ++
  (match e.script_runner with
   | some _ =>
       if scriptRunnerHasAttr "terminate" then [XAction.runnerTerminate tid]
       else [XAction.attrErrorSwallowed tid]
   | none => [])

/-- Second phase: pop each matched entry and run its runner's `cleanup()`
(deleting the temp directory), threading the filesystem through. -/
def cancelCleanupFold (o : RunnerO) :
    List (String × CEntry) → List String → List String × List XAction
  | [], fs => (fs, [])
  | (tid, e) :: rest, fs =>
      match e.script_runner with
      | none => cancelCleanupFold o rest fs
      | some sr =>
          let c := scriptRunnerCleanup o sr fs
          let r := cancelCleanupFold o rest c.2
          (r.1, XAction.runnerCleanupCall tid :: r.2)

/-- Embedding of the `cancel_execution` route body: terminate and drop every
entry whose id mentions script/workflow/install/model, then drain the queue. -/
def cancelExecution (o : RunnerO) (s : CancelState) : CancelState × List XAction :=
  let toCancel := s.running_processes.filter (fun kv => shouldCancel kv.1)
  let keep := s.running_processes.filter (fun kv => ! shouldCancel kv.1)
  let phase1 := toCancel.flatMap (fun kv => cancelEntryPhase1 kv.1 kv.2)
  let fold := cancelCleanupFold o toCancel s.fs
  ({ running_processes := keep, fs := fold.1, queue := [] }, phase1 ++ fold.2)

/-- The tracking entry installed by the execute-script route: the task id is
`script_<name>_<timestamp>` and the process field is `None` (a comment there
defers to a `runner.current_process` attribute that does not exist). -/
def executeScriptTrackEntry (script_name ts : String) (r : ScriptRunner) :
    String × CEntry :=
  ("script_" ++ script_name ++ "_" ++ ts, { process := none, script_runner := some r })

theorem contains_script_of_script_id (rest : String) :
    strContains (pyLower ("script_" ++ rest)) "script" = true := by
  have hmap : ("script_".data).map lowerChar = "script_".data := by decide
  show sublistAt "script".data ((("script_" ++ rest).data).map lowerChar) = true
  have hd : ("script_" ++ rest).data = "script_".data ++ rest.data := rfl
  rw [hd, List.map_append, hmap]
  have hsplit : ("script_".data : List Char) = "script".data ++ ['_'] := by decide
  rw [hsplit, List.append_assoc]
  exact sublistAt_of_append _ _

theorem shouldCancel_script_id (rest : String) :
    shouldCancel ("script_" ++ rest) = true := by
  unfold shouldCancel
  rw [contains_script_of_script_id]
  simp

/-- C3: `ScriptRunner` defines neither `terminate` nor `current_process`;
the execute-script route tracks its task with `process = None`; and
cancelling such a task swallows the `AttributeError` from
`script_runner.terminate()`, removes the tracking entry, runs the runner's
`cleanup()` (deleting its temp directory when it exists), and never issues a
single process-termination call — the child keeps running. -/
theorem c3_cancel_script_task (o : RunnerO) (script_name ts : String)
    (r : ScriptRunner) (fs : List String) (q : List (String × String)) :
    scriptRunnerHasAttr "terminate" = false
    ∧ scriptRunnerHasAttr "current_process" = false
    ∧ (executeScriptTrackEntry script_name ts r).2.process = none
    ∧ (cancelExecution o
        { running_processes := [executeScriptTrackEntry script_name ts r],
          fs := fs, queue := q }).1.running_processes = []
    ∧ (cancelExecution o
        { running_processes := [executeScriptTrackEntry script_name ts r],
          fs := fs, queue := q }).2
        = [XAction.attrErrorSwallowed ("script_" ++ script_name ++ "_" ++ ts),
           XAction.runnerCleanupCall ("script_" ++ script_name ++ "_" ++ ts)]
    ∧ (cancelExecution o
        { running_processes := [executeScriptTrackEntry script_name ts r],
          fs := fs, queue := q }).1.fs = (scriptRunnerCleanup o r fs).2
    ∧ (o.rmtreeOk = true → ∀ d, r.temp_dir = some d → fsContains fs d = true →
        fsContains (cancelExecution o
          { running_processes := [executeScriptTrackEntry script_name ts r],
            fs := fs, queue := q }).1.fs d = false)
    ∧ (∀ tid0 sub, XAction.procTermInvoke tid0 sub ∉ (cancelExecution o
        { running_processes := [executeScriptTrackEntry script_name ts r],
          fs := fs, queue := q }).2) := by
  have hsc : shouldCancel ("script_" ++ script_name ++ "_" ++ ts) = true := by
    have h := shouldCancel_script_id (script_name ++ "_" ++ ts)
    have ha : "script_" ++ (script_name ++ "_" ++ ts)
        = "script_" ++ script_name ++ "_" ++ ts := by
      rw [← String.append_assoc, ← String.append_assoc]
    rwa [ha] at h
  have hterm : scriptRunnerHasAttr "terminate" = false := by decide
  refine ⟨hterm, by decide, rfl, ?_, ?_, ?_, ?_, ?_⟩
  · simp [cancelExecution, executeScriptTrackEntry, hsc]
  · simp [cancelExecution, executeScriptTrackEntry, hsc, cancelEntryPhase1,
      cancelCleanupFold, hterm]
  · simp [cancelExecution, executeScriptTrackEntry, hsc, cancelCleanupFold]
  · intro hrm d hd hin
    simp only [cancelExecution, executeScriptTrackEntry, List.filter_cons, hsc,
      if_pos, List.filter_nil, cancelCleanupFold]
    simp [scriptRunnerCleanup, hd, hin, hrm, rmtree_not_contains_self]
  · intro tid0 sub
    simp [cancelExecution, executeScriptTrackEntry, hsc, cancelEntryPhase1,
      cancelCleanupFold, hterm]

/-- Witness for C3 on a concrete runner holding a temp directory that exists. -/
theorem c3_cancel_script_task_witness :
    (cancelExecution
        { mkdtempResult := none, presignOk := true, fetchOk := true,
          runOutcome := Except.ok 0, rmtreeOk := true }
        { running_processes := [executeScriptTrackEntry "windows_triton" "1700000000"
            { access_token := some "tok", configs_url := some "url",
              temp_dir := some "/tmp/sr9", script_path := some "/tmp/sr9/w.py" }],
          fs := ["/tmp/sr9", "/tmp/sr9/w.py", "/base"],
          queue := [("workflow", "workflow_u1")] }).1.running_processes = []
    ∧ ({ mkdtempResult := none, presignOk := true, fetchOk := true,
          runOutcome := Except.ok 0, rmtreeOk := true } : RunnerO).rmtreeOk = true
    ∧ fsContains ["/tmp/sr9", "/tmp/sr9/w.py", "/base"] "/tmp/sr9" = true
    ∧ fsContains (cancelExecution
        { mkdtempResult := none, presignOk := true, fetchOk := true,
          runOutcome := Except.ok 0, rmtreeOk := true }
        { running_processes := [executeScriptTrackEntry "windows_triton" "1700000000"
            { access_token := some "tok", configs_url := some "url",
              temp_dir := some "/tmp/sr9", script_path := some "/tmp/sr9/w.py" }],
          fs := ["/tmp/sr9", "/tmp/sr9/w.py", "/base"],
          queue := [("workflow", "workflow_u1")] }).1.fs "/tmp/sr9" = false := by
  refine ⟨(c3_cancel_script_task _ _ _ _ _ _).2.2.2.1, rfl, by decide, ?_⟩
  exact (c3_cancel_script_task _ "windows_triton" "1700000000" _
    ["/tmp/sr9", "/tmp/sr9/w.py", "/base"] [("workflow", "workflow_u1")]).2.2.2.2.2.2.1
    rfl "/tmp/sr9" rfl (by decide)

/-! ## C1: single-worker FIFO task queue
(`task_worker` nitra_server.py 584-612, enqueue sites in `install_workflow`
2356-2373 and `install_models` 2494-2511)

Transition-system model of the queue discipline.  One atomic step per
lock-guarded section of the source:

* `enqueue`: a route puts `(task_type, task_data)` on the FIFO queue and
  starts the worker thread when none is alive (so afterwards a worker is
  alive in either case);
* `pullTask`: the worker, holding the lock, pops the head of the queue and
  records it in `tasks_in_progress` — only possible when no task is being
  executed, because the single worker loop only returns to `task_queue.get`
  after the previous task ran to completion;
* `finishTask`: the executed task is discarded from `tasks_in_progress`;
* `workerExit`: the worker finds the queue empty and terminates.

The `workerTask` field holds the task currently being executed (the sole
`tasks_in_progress` entry); it is an `Option` because a single worker thread
drains the queue — the route handlers all run on the aiohttp event loop and
start a worker only when none is alive, and the loop body executes each task
to completion before pulling the next. -/

/-- Observable queue events: enqueue, start of execution, end of execution. -/
inductive QEvent where
  | enq (ty id : String)
  | pull (ty id : String)
  | fin (ty id : String)
deriving DecidableEq

/-- Queue-system state: pending FIFO queue, the task being executed,
whether a worker thread is alive, and the event history. -/
structure QState where
  queue : List (String × String)
  workerTask : Option (String × String)
  workerAlive : Bool
  trace : List QEvent

/-- Startup state: empty queue, no worker. -/
def initQState : QState :=
  { queue := [], workerTask := none, workerAlive := false, trace := [] }

/-- One atomic transition of the queue system. -/
inductive QStep : QState → QState → Prop where
  | enqueue (t : String × String) (s : QState) :
      QStep s { queue := s.queue ++ [t], workerTask := s.workerTask,
                workerAlive := true, trace := s.trace ++ [QEvent.enq t.1 t.2] }
  | pullTask (t : String × String) (rest : List (String × String)) (s : QState)
      (h1 : s.workerAlive = true) (h2 : s.workerTask = none)
      (h3 : s.queue = t :: rest) :
      QStep s { queue := rest, workerTask := some t, workerAlive := true,
                trace := s.trace ++ [QEvent.pull t.1 t.2] }
  | finishTask (t : String × String) (s : QState) (h : s.workerTask = some t) :
      QStep s { queue := s.queue, workerTask := none, workerAlive := s.workerAlive,
                trace := s.trace ++ [QEvent.fin t.1 t.2] }
  | workerExit (s : QState) (h1 : s.workerTask = none) (h2 : s.queue = []) :
      QStep s { queue := s.queue, workerTask := none, workerAlive := false,
                trace := s.trace }

/-- Reachability from the startup state. -/
inductive QReach : QState → Prop where
  | init : QReach initQState
  | step (s s2 : QState) : QReach s → QStep s s2 → QReach s2

/-- Tasks enqueued, in order. -/
def enqueuedOf : List QEvent → List (String × String)
  | [] => []
  | QEvent.enq a b :: rest => (a, b) :: enqueuedOf rest
  | QEvent.pull _ _ :: rest => enqueuedOf rest
  | QEvent.fin _ _ :: rest => enqueuedOf rest

/-- Tasks whose execution has completed, in order. -/
def finishedOf : List QEvent → List (String × String)
  | [] => []
  | QEvent.fin a b :: rest => (a, b) :: finishedOf rest
  | QEvent.enq _ _ :: rest => finishedOf rest
  | QEvent.pull _ _ :: rest => finishedOf rest

/-- Serialization automaton: tracks the task currently being executed, and
rejects (`none`) any trace where an execution starts while another is still
running, or ends out of turn. -/
def serStep (cur : Option (Option (String × String))) (e : QEvent) :
    Option (Option (String × String)) :=
  match cur, e with
  | none, _ => none
  | some c, QEvent.enq _ _ => some c
  | some none, QEvent.pull a b => some (some (a, b))
  | some (some _), QEvent.pull _ _ => none
  | some (some t), QEvent.fin a b => if t = (a, b) then some none else none
  | some none, QEvent.fin _ _ => none

/-- Run the serialization automaton over a trace. -/
def serState (l : List QEvent) : Option (Option (String × String)) :=
  l.foldl serStep (some none)

theorem serState_append_one (l : List QEvent) (e : QEvent) :
    serState (l ++ [e]) = serStep (serState l) e := by
  simp [serState, List.foldl_append]

theorem enqueuedOf_append (l1 l2 : List QEvent) :
    enqueuedOf (l1 ++ l2) = enqueuedOf l1 ++ enqueuedOf l2 := by
  induction l1 with
  | nil => rfl
  | cons e rest ih => cases e <;> simp [enqueuedOf, ih]

theorem finishedOf_append (l1 l2 : List QEvent) :
    finishedOf (l1 ++ l2) = finishedOf l1 ++ finishedOf l2 := by
  induction l1 with
  | nil => rfl
  | cons e rest ih => cases e <;> simp [finishedOf, ih]

/-- C1: in every reachable state of the queue system, the trace is accepted
by the serialization automaton with current task `workerTask` — so at most
one queued job executes at any time and each runs to completion before the
next `pull` — and the enqueue order is exactly the finished tasks, then the
in-flight task, then the still-pending queue: jobs are executed in
submission (FIFO) order. -/
theorem c1_single_worker_fifo (s : QState) (hr : QReach s) :
    serState s.trace = some s.workerTask
    ∧ enqueuedOf s.trace
        = finishedOf s.trace ++ s.workerTask.toList ++ s.queue := by
  induction hr with
  | init => exact ⟨rfl, rfl⟩
  | step s s2 _ hstep ih =>
      obtain ⟨ih1, ih2⟩ := ih
      cases hstep with
      | enqueue t s =>
          constructor
          · rw [serState_append_one, ih1]
            cases s.workerTask <;> rfl
          · rw [enqueuedOf_append, finishedOf_append, ih2]
            simp [enqueuedOf, finishedOf, List.append_assoc]
      | pullTask t rest s h1 h2 h3 =>
          constructor
          · rw [serState_append_one, ih1, h2]
            rfl
          · rw [enqueuedOf_append, finishedOf_append, ih2, h2, h3]
            simp [enqueuedOf, finishedOf]
      | finishTask t s h =>
          constructor
          · rw [serState_append_one, ih1, h]
            simp [serStep]
          · rw [enqueuedOf_append, finishedOf_append, ih2, h]
            simp [enqueuedOf, finishedOf]
      | workerExit s h1 h2 =>
          constructor
          · simpa [h1] using ih1
          · simpa [h1] using ih2

/-- Witness for C1: a concrete run — enqueue a workflow task and a model
task, execute both — is reachable, and the theorem instantiates on it. -/
theorem c1_single_worker_fifo_witness :
    QReach { queue := [], workerTask := none, workerAlive := true,
             trace := [QEvent.enq "workflow" "workflow_u1",
                       QEvent.enq "model" "models_u1",
                       QEvent.pull "workflow" "workflow_u1",
                       QEvent.fin "workflow" "workflow_u1",
                       QEvent.pull "model" "models_u1",
                       QEvent.fin "model" "models_u1"] }
    ∧ serState [QEvent.enq "workflow" "workflow_u1",
                QEvent.enq "model" "models_u1",
                QEvent.pull "workflow" "workflow_u1",
                QEvent.fin "workflow" "workflow_u1",
                QEvent.pull "model" "models_u1",
                QEvent.fin "model" "models_u1"] = some none
    ∧ enqueuedOf [QEvent.enq "workflow" "workflow_u1",
                  QEvent.enq "model" "models_u1",
                  QEvent.pull "workflow" "workflow_u1",
                  QEvent.fin "workflow" "workflow_u1",
                  QEvent.pull "model" "models_u1",
                  QEvent.fin "model" "models_u1"]
        = finishedOf [QEvent.enq "workflow" "workflow_u1",
                      QEvent.enq "model" "models_u1",
                      QEvent.pull "workflow" "workflow_u1",
                      QEvent.fin "workflow" "workflow_u1",
                      QEvent.pull "model" "models_u1",
                      QEvent.fin "model" "models_u1"] := by
  have h0 := QReach.init
  have h1 := QReach.step _ _ h0 (QStep.enqueue ("workflow", "workflow_u1") initQState)
  have h2 := QReach.step _ _ h1 (QStep.enqueue ("model", "models_u1") _)
  have h3 := QReach.step _ _ h2
    (QStep.pullTask ("workflow", "workflow_u1") [("model", "models_u1")] _ rfl rfl rfl)
  have h4 := QReach.step _ _ h3 (QStep.finishTask ("workflow", "workflow_u1") _ rfl)
  have h5 := QReach.step _ _ h4
    (QStep.pullTask ("model", "models_u1") [] _ rfl rfl rfl)
  have h6 := QReach.step _ _ h5 (QStep.finishTask ("model", "models_u1") _ rfl)
  refine ⟨h6, ?_, ?_⟩
  · exact (c1_single_worker_fifo _ h6).1
  · have h := (c1_single_worker_fifo _ h6).2
    simpa using h

/-! ## C2 and C9: route-level bearer-token validation and exception handling

The extension registers 34 routes (the `/nitra/custom-nodes` path twice).
Each handler is modeled as a total "core" `Req → HOracle → RespE` giving the
status and side effects of the body, composed with a wrapper that models the
handler's exception discipline:

* `wrapCatch`: the body sits inside a blanket `try/except Exception`
  returning a 500 — an unexpected exception anywhere in the body
  (`o.bodyRaises`) becomes a 500 response;
* `wrapCatch200`: same, but the catch of `get_node_mappings`
  (nitra_server.py 4214-4216) returns an empty JSON object with status 200;
* `wrapOk`: the device-registrations/register/telemetry handlers read the
  Authorization header before their `try`, so the guard decides first and
  the body's exception handling lives in the core (the two header-reading
  lines are modeled as non-raising);
* `wrapNone`: `get_config` (252-257), `test_route` (2228-2232),
  `reset_queue` (2929-2939) and `queue_status` (2941-2959) have no
  try/except at all — an unexpected exception in the body escapes.

Python semantics lets almost any operation raise (out-of-memory, runtime
errors delivered on the event-loop thread), which is what `o.bodyRaises`
injects.  Effects record upstream HTTP calls, subprocess spawns, task
enqueues, and local state changes; for routes with no Authorization check
the effect lists describe the nominal body (e.g. the identity probes spawn
`wmic`/`ioreg` subprocesses on Windows/macOS). -/

/-- An HTTP response (only the status code matters for these claims). -/
structure Resp where
  status : Nat
deriving DecidableEq

/-- Side effects a handler can perform. -/
inductive Effect where
  | upstreamCall
  | subprocessSpawn
  | enqueueTask
  | stateChange
deriving DecidableEq

/-- Handler result: response or escaped exception, plus effects performed. -/
structure HResult where
  outcome : Except Unit Resp
  effects : List Effect

/-- Status and effects of a handler body that ran without an escaped
exception. -/
structure RespE where
  status : Nat
  effects : List Effect

/-- Build a `RespE`. -/
def rE (st : Nat) (efs : List Effect) : RespE := { status := st, effects := efs }

/-- Request fields read by the modeled handlers. -/
structure Req where
  auth : String
  queryEmail : String
  bodyOk : Bool
  bodyFieldsOk : Bool
  hasBasePath : Bool
  bodyUserId : Option String
  bodyUserEmail : Option String
  bodyCategory : Option String
  bodyWorkflowIds : List String
  bodyModelIds : List String
  pathWorkflowId : String
  activeUpdates : List (String × String)

/-- Outcome of `_require_device_registration_only` inside `install_workflow`
and `install_package`: registered, a `DeviceVerificationError` (mapped to
428), or some other exception (caught by the blanket handler). -/
inductive DeviceRes where
  | ok
  | verifyError
  | raises
deriving DecidableEq

/-- Outcome of `_require_subscription_and_device` inside `execute_script`:
verified, a `SubscriptionVerificationError` (403), a
`DeviceVerificationError` (428), or some other exception (blanket 500). -/
inductive VerifyRes where
  | ok
  | subError
  | devError
  | raises
deriving DecidableEq

/-- Oracle for the primitives the modeled handlers call. -/
structure HOracle where
  bodyRaises : Bool
  upstreamRaises : Bool
  upstreamStatus : Nat
  deviceResult : DeviceRes
  verifyResult : VerifyRes
  jwtDecode : String → Option JwtPayload
  comfyRootOk : Bool
  gitPullOk : Bool
  installerOk : Bool
  fsWriteOk : Bool

/-- Python truthiness of an optional string (`None` and `''` are falsy). -/
def pyTruthyOpt (v : Option String) : Bool :=
  match v with
  | none => false
  | some x => x ≠ ""

/-- The claim predicate on the Authorization header: no Bearer prefix, or an
empty token after it. -/
def badAuth (a : String) : Bool :=
  !(pyStartsWith a "Bearer ") || (pyDrop a 7 = "")

/-- Blanket `try/except Exception` returning a 500: an unexpected exception
anywhere in the body becomes a 500 response, never a propagated exception. -/
def wrapCatch (core : Req → HOracle → RespE) (req : Req) (o : HOracle) : HResult :=
  if o.bodyRaises then { outcome := Except.ok { status := 500 }, effects := [] }
  else { outcome := Except.ok { status := (core req o).status },
         effects := (core req o).effects }

/-- The catch of `get_node_mappings`: an empty JSON object with status 200. -/
def wrapCatch200 (core : Req → HOracle → RespE) (req : Req) (o : HOracle) : HResult :=
  if o.bodyRaises then { outcome := Except.ok { status := 200 }, effects := [] }
  else { outcome := Except.ok { status := (core req o).status },
         effects := (core req o).effects }

/-- Handlers whose guard precedes the `try` and whose core already maps the
injected exception: the outcome is always a response. -/
def wrapOk (core : Req → HOracle → RespE) (req : Req) (o : HOracle) : HResult :=
  { outcome := Except.ok { status := (core req o).status },
    effects := (core req o).effects }

/-- Handlers with no try/except: an unexpected body exception escapes. -/
def wrapNone (core : Req → HOracle → RespE) (req : Req) (o : HOracle) : HResult :=
  if o.bodyRaises then { outcome := Except.error (), effects := [] }
  else { outcome := Except.ok { status := (core req o).status },
         effects := (core req o).effects }

/-- The userEmail-or-JWT-decode block shared verbatim by the workflows,
models, custom-nodes and workflow-details handlers; `none` means the block
returned a 401 (bad token format or undecodable payload). -/
def jwtEmailStep (decode : String → Option JwtPayload) (tok queryEmail : String) :
    Option String :=
  if queryEmail ≠ "" then some queryEmail
  else
    match pySplitDot tok with
    | [_, payloadB64, _] =>
        match decode (padBase64 payloadB64) with
        | none => none
        | some p => some (emailFromPayload p)
    | _ => none

/-- `/nitra/config` (`get_config`): the website URL, no checks, no try. -/
def getConfigCore (_ : Req) (_ : HOracle) : RespE := rE 200 []

/-- `/nitra/check-versions` (`check_versions`): no Authorization check;
probes installed tools via winget/pip subprocesses (inner failures are each
caught and still yield a 200). -/
def checkVersionsCore (_ : Req) (_ : HOracle) : RespE :=
  rE 200 [Effect.subprocessSpawn]

/-- `/nitra/auth/subscription-check` (`get_subscription_check`): full bearer
guard (prefix and non-empty token), body parse, then an upstream POST; an
upstream error response still yields a 200 free-tier answer. -/
def getSubscriptionCheckCore (req : Req) (o : HOracle) : RespE :=
  if pyStartsWith req.auth "Bearer " then
    if pyDrop req.auth 7 = "" then rE 401 []
    else if req.bodyOk then
      if pyTruthyOpt req.bodyUserId then
        if o.upstreamRaises then rE 500 [Effect.upstreamCall]
        else rE 200 [Effect.upstreamCall]
      else rE 400 []
    else rE 500 []
  else rE 401 []

/-- Body shared verbatim by `get_workflows_metadata` and
`get_models_metadata` (only the upstream URL differs): prefix-only bearer
guard (`not auth_header or not auth_header.startswith('Bearer ')` — an empty
token is NOT rejected), then an upstream GET with status passthrough. -/
def metadataFetchCore (req : Req) (o : HOracle) : RespE :=
  if req.auth = "" || !(pyStartsWith req.auth "Bearer ") then rE 401 []
  else if o.upstreamRaises then rE 500 [Effect.upstreamCall]
  else if o.upstreamStatus = 200 then rE 200 [Effect.upstreamCall]
  else rE o.upstreamStatus [Effect.upstreamCall]

/-- `/nitra/execute/cancel` (`cancel_execution`): no Authorization check;
terminates matching processes, drains the queue, rewrites update statuses. -/
def cancelExecutionCore (_ : Req) (_ : HOracle) : RespE :=
  rE 200 [Effect.stateChange]

/-- `/nitra/execute/script` (`execute_script`): parses the body and locates
the ComfyUI root BEFORE any auth check (a malformed body or missing root
gives a 500 first); the guard is prefix-only (`replace('Bearer ', '')`
never rejects an empty token); then subscription/device verification
(upstream calls), the update-status write, and the background runner. -/
def executeScriptCore (req : Req) (o : HOracle) : RespE :=
  if req.bodyOk then
    if o.comfyRootOk then
      if pyStartsWith req.auth "Bearer " then
        if pyTruthyOpt req.bodyUserId then
          match o.verifyResult with
          | VerifyRes.subError => rE 403 [Effect.upstreamCall]
          | VerifyRes.devError => rE 428 [Effect.upstreamCall]
          | VerifyRes.raises => rE 500 [Effect.upstreamCall]
          | VerifyRes.ok =>
              if pyDrop req.auth 7 = "" || !(pyTruthyOpt req.bodyUserEmail) then
                rE 200 [Effect.upstreamCall, Effect.stateChange]
              else
                rE 200 [Effect.upstreamCall, Effect.stateChange, Effect.subprocessSpawn]
        else rE 400 []
      else rE 401 []
    else rE 500 []
  else rE 500 []

/-- `/nitra/status/update` (`get_update_status`) via the C8 embedding. -/
def getUpdateStatusCore (req : Req) (o : HOracle) : RespE :=
  rE (match getUpdateStatus o.jwtDecode req.auth req.queryEmail req.activeUpdates with
      | UpdateResp.err st _ => st
      | UpdateResp.info _ => 200
      | UpdateResp.noneFound => 200) []

/-- Body shared verbatim by `get_workflows`, `get_models` and the two
`get_custom_nodes` registrations (only the upstream URL differs): full
bearer guard, the userEmail/JWT block, then an upstream GET whose
`raise_for_status()` turns any error status into the blanket 500. -/
def catalogFetchCore (req : Req) (o : HOracle) : RespE :=
  if pyStartsWith req.auth "Bearer " then
    if pyDrop req.auth 7 = "" then rE 401 []
    else
      match jwtEmailStep o.jwtDecode (pyDrop req.auth 7) req.queryEmail with
      | none => rE 401 []
      | some _ =>
          if o.upstreamRaises || decide (400 ≤ o.upstreamStatus) then
            rE 500 [Effect.upstreamCall]
          else rE 200 [Effect.upstreamCall]
  else rE 401 []

/-- `/nitra/workflows/{workflow_id}` (`get_workflow_details`): full bearer
guard, missing path id gives 400, then the userEmail/JWT block and an
upstream GET with `raise_for_status()`. -/
def getWorkflowDetailsCore (req : Req) (o : HOracle) : RespE :=
  if pyStartsWith req.auth "Bearer " then
    if pyDrop req.auth 7 = "" then rE 401 []
    else if req.pathWorkflowId = "" then rE 400 []
    else
      match jwtEmailStep o.jwtDecode (pyDrop req.auth 7) req.queryEmail with
      | none => rE 401 []
      | some _ =>
          if o.upstreamRaises || decide (400 ≤ o.upstreamStatus) then
            rE 500 [Effect.upstreamCall]
          else rE 200 [Effect.upstreamCall]
  else rE 401 []

/-- `/nitra/test` (`test_route`): a debug log line and a 200, no checks. -/
def testRouteCore (_ : Req) (_ : HOracle) : RespE := rE 200 []

/-- `/nitra/install/workflow` (`install_workflow`): full bearer guard, body
checks, the device-registration verification (an upstream call), then the
task enqueue. -/
def installWorkflowCore (req : Req) (o : HOracle) : RespE :=
  if pyStartsWith req.auth "Bearer " then
    if pyDrop req.auth 7 = "" then rE 401 []
    else if req.bodyOk then
      if req.bodyWorkflowIds = [] then rE 400 []
      else if pyTruthyOpt req.bodyUserId && pyTruthyOpt req.bodyUserEmail then
        match o.deviceResult with
        | DeviceRes.verifyError => rE 428 [Effect.upstreamCall]
        | DeviceRes.raises => rE 500 [Effect.upstreamCall]
        | DeviceRes.ok => rE 200 [Effect.upstreamCall, Effect.enqueueTask]
      else rE 400 []
    else rE 500 []
  else rE 401 []

/-- `/nitra/install/models` (`install_models`): full bearer guard and body
checks, then the task enqueue (no device verification on this route). -/
def installModelsCore (req : Req) (_ : HOracle) : RespE :=
  if pyStartsWith req.auth "Bearer " then
    if pyDrop req.auth 7 = "" then rE 401 []
    else if req.bodyOk then
      if req.bodyModelIds = [] then rE 400 []
      else if pyTruthyOpt req.bodyUserId && pyTruthyOpt req.bodyUserEmail then
        rE 200 [Effect.enqueueTask]
      else rE 400 []
    else rE 500 []
  else rE 401 []

/-- `/nitra/models/check-existing` (`check_existing_models`): full bearer
guard, then a local filesystem walk. -/
def checkExistingModelsCore (req : Req) (_ : HOracle) : RespE :=
  if pyStartsWith req.auth "Bearer " then
    if pyDrop req.auth 7 = "" then rE 401 []
    else rE 200 []
  else rE 401 []

/-- `/nitra/custom-nodes/check-installed` (`check_installed_custom_nodes`):
prefix-only bearer guard (no empty-token check), then a directory listing. -/
def checkInstalledCustomNodesCore (req : Req) (_ : HOracle) : RespE :=
  if pyStartsWith req.auth "Bearer " then rE 200 []
  else rE 401 []

/-- `/nitra/check-nitra-updates` (`check_nitra_updates`): no Authorization
check; spawns git subprocesses (inner git failures still answer 200). -/
def checkNitraUpdatesCore (_ : Req) (_ : HOracle) : RespE :=
  rE 200 [Effect.subprocessSpawn]

/-- `/nitra/update-nitra` (`update_nitra`): no Authorization check; runs
`git pull` in a subprocess and reports its outcome. -/
def updateNitraCore (_ : Req) (o : HOracle) : RespE :=
  if o.gitPullOk then rE 200 [Effect.subprocessSpawn]
  else rE 500 [Effect.subprocessSpawn]

/-- `/nitra/update-comfyui` (`update_comfyui`): no Authorization check; runs
`git pull` and a pip requirements install in subprocesses. -/
def updateComfyuiCore (_ : Req) (o : HOracle) : RespE :=
  if o.gitPullOk then rE 200 [Effect.subprocessSpawn]
  else rE 500 [Effect.subprocessSpawn]

/-- `/nitra/restart` (`restart_comfyui`): no Authorization check; probes
`pip show sageattention` via a subprocess and schedules a server restart. -/
def restartCore (_ : Req) (_ : HOracle) : RespE :=
  rE 200 [Effect.subprocessSpawn, Effect.stateChange]

/-- `/nitra/queue/reset` (`reset_queue`): no Authorization check and no
try/except; replaces the queue and kills tracked processes. -/
def resetQueueCore (_ : Req) (_ : HOracle) : RespE :=
  rE 200 [Effect.stateChange]

/-- `/nitra/queue/status` (`queue_status`): no Authorization check and no
try/except; reads the shared counters. -/
def queueStatusCore (_ : Req) (_ : HOracle) : RespE := rE 200 []

/-- `/nitra/install/package` (`install_package`): calls
`_register_promptserver_shutdown()` — a global state change — BEFORE the
bearer guard, so even a rejected request mutates hook state; then full
guard, body checks, device verification (upstream), installer subprocess. -/
def installPackageCore (req : Req) (o : HOracle) : RespE :=
  if pyStartsWith req.auth "Bearer " then
    if pyDrop req.auth 7 = "" then rE 401 [Effect.stateChange]
    else if req.bodyOk then
      if pyTruthyOpt req.bodyCategory then
        if pyTruthyOpt req.bodyUserId && pyTruthyOpt req.bodyUserEmail then
          match o.deviceResult with
          | DeviceRes.verifyError => rE 428 [Effect.stateChange, Effect.upstreamCall]
          | DeviceRes.raises => rE 500 [Effect.stateChange, Effect.upstreamCall]
          | DeviceRes.ok =>
              if o.installerOk then
                rE 200 [Effect.stateChange, Effect.upstreamCall, Effect.subprocessSpawn]
              else
                rE 500 [Effect.stateChange, Effect.upstreamCall, Effect.subprocessSpawn]
        else rE 400 [Effect.stateChange]
      else rE 400 [Effect.stateChange]
    else rE 500 [Effect.stateChange]
  else rE 401 [Effect.stateChange]

/-- `/nitra/contact` (`proxy_contact`): no Authorization check; body parse
and validation, then an upstream POST with status passthrough. -/
def proxyContactCore (req : Req) (o : HOracle) : RespE :=
  if req.bodyOk then
    if req.bodyFieldsOk then
      if o.upstreamRaises then rE 500 [Effect.upstreamCall]
      else if decide (400 ≤ o.upstreamStatus) then rE o.upstreamStatus [Effect.upstreamCall]
      else rE 200 [Effect.upstreamCall]
    else rE 400 []
  else rE 500 []

/-- GET `/nitra/user-config` (`get_user_config`): no Authorization check;
reads the TOML config file. -/
def getUserConfigCore (_ : Req) (_ : HOracle) : RespE := rE 200 []

/-- POST `/nitra/user-config` (`save_user_config`): no Authorization CHECK —
it never rejects on the header — but when a base path is configured and a
bearer token happens to be present it uses the token for an upstream folder
discovery call; it writes config.toml and extra_model_paths.yaml. -/
def saveUserConfigCore (req : Req) (o : HOracle) : RespE :=
  if req.bodyOk then
    if req.bodyFieldsOk then
      if o.fsWriteOk then
        rE 200 ([Effect.stateChange] ++
          (if req.hasBasePath &&
              (pyStartsWith req.auth "Bearer " && !(pyDrop req.auth 7 = "")) then
            [Effect.upstreamCall]
          else []))
      else rE 500 []
    else rE 400 []
  else rE 500 []

/-- `/nitra/device/identity` (`get_device_identity`): no Authorization
check; collects the hardware identity (spawning wmic/ioreg subprocesses on
Windows/macOS) and reads the device state. -/
def getDeviceIdentityCore (_ : Req) (_ : HOracle) : RespE :=
  rE 200 [Effect.subprocessSpawn]

/-- `/nitra/debug/device-status` (`debug_device_status`): prefix-only bearer
guard (no empty-token check), then an upstream probe whose failure is
reported inside a 200 body. -/
def debugDeviceStatusCore (req : Req) (_ : HOracle) : RespE :=
  if pyStartsWith req.auth "Bearer " then rE 200 [Effect.upstreamCall]
  else rE 401 []

/-- `/nitra/device/registrations` (`list_device_registrations`): prefix-only
guard BEFORE the try block, then an upstream GET with status passthrough;
an exception inside the try becomes a 500. -/
def listDeviceRegistrationsCore (req : Req) (o : HOracle) : RespE :=
  if req.auth = "" || !(pyStartsWith req.auth "Bearer ") then rE 401 []
  else if o.bodyRaises then rE 500 []
  else if o.upstreamRaises then rE 500 [Effect.upstreamCall]
  else rE o.upstreamStatus [Effect.upstreamCall]

/-- `/nitra/device/register` (`register_device`): prefix-only guard before
the try block, then the upstream registration; the device state is written
on the nominal success body (a 2xx response carrying a device token). -/
def registerDeviceCore (req : Req) (o : HOracle) : RespE :=
  if req.auth = "" || !(pyStartsWith req.auth "Bearer ") then rE 401 []
  else if o.bodyRaises then rE 500 []
  else if o.upstreamRaises then rE 500 [Effect.upstreamCall]
  else if decide (o.upstreamStatus < 400) then
    rE o.upstreamStatus [Effect.upstreamCall, Effect.stateChange]
  else rE o.upstreamStatus [Effect.upstreamCall]

/-- `/nitra/telemetry/login` (`telemetry_login`): prefix-only guard before
the try block, tolerant body parse, then an upstream POST. -/
def telemetryLoginCore (req : Req) (o : HOracle) : RespE :=
  if req.auth = "" || !(pyStartsWith req.auth "Bearer ") then rE 401 []
  else if o.bodyRaises then rE 500 []
  else if o.upstreamRaises then rE 500 [Effect.upstreamCall]
  else rE o.upstreamStatus [Effect.upstreamCall]

/-- `/nitra/node-mappings` (`get_node_mappings`): no Authorization check;
reads ComfyUI-Manager's extension-node-map.json. -/
def getNodeMappingsCore (_ : Req) (_ : HOracle) : RespE := rE 200 []

/-- Handler for `/nitra/config` (no try/except). -/
def getConfigH : Req → HOracle → HResult := wrapNone getConfigCore

/-- Handler for `/nitra/check-versions` (blanket catch to 500). -/
def checkVersionsH : Req → HOracle → HResult := wrapCatch checkVersionsCore

/-- Handler for `/nitra/auth/subscription-check`. -/
def getSubscriptionCheckH : Req → HOracle → HResult := wrapCatch getSubscriptionCheckCore

/-- Handler for `/nitra/workflows-metadata`. -/
def workflowsMetadataH : Req → HOracle → HResult := wrapCatch metadataFetchCore

/-- Handler for `/nitra/models-metadata`. -/
def modelsMetadataH : Req → HOracle → HResult := wrapCatch metadataFetchCore

/-- Handler for `/nitra/execute/cancel`. -/
def cancelExecutionH : Req → HOracle → HResult := wrapCatch cancelExecutionCore

/-- Handler for `/nitra/execute/script`. -/
def executeScriptH : Req → HOracle → HResult := wrapCatch executeScriptCore

/-- Handler for `/nitra/status/update`. -/
def getUpdateStatusH : Req → HOracle → HResult := wrapCatch getUpdateStatusCore

/-- Handler for `/nitra/workflows`. -/
def getWorkflowsH : Req → HOracle → HResult := wrapCatch catalogFetchCore

/-- Handler for `/nitra/models`. -/
def getModelsH : Req → HOracle → HResult := wrapCatch catalogFetchCore

/-- Handler for the first `/nitra/custom-nodes` registration. -/
def getCustomNodesH : Req → HOracle → HResult := wrapCatch catalogFetchCore

/-- Handler for `/nitra/workflows/{workflow_id}`. -/
def getWorkflowDetailsH : Req → HOracle → HResult := wrapCatch getWorkflowDetailsCore

/-- Handler for `/nitra/test` (no try/except). -/
def testRouteH : Req → HOracle → HResult := wrapNone testRouteCore

/-- Handler for `/nitra/install/workflow`. -/
def installWorkflowH : Req → HOracle → HResult := wrapCatch installWorkflowCore

/-- Handler for `/nitra/install/models`. -/
def installModelsH : Req → HOracle → HResult := wrapCatch installModelsCore

/-- Handler for `/nitra/models/check-existing`. -/
def checkExistingModelsH : Req → HOracle → HResult := wrapCatch checkExistingModelsCore

/-- Handler for `/nitra/custom-nodes/check-installed`. -/
def checkInstalledCustomNodesH : Req → HOracle → HResult :=
  wrapCatch checkInstalledCustomNodesCore

/-- Handler for `/nitra/check-nitra-updates`. -/
def checkNitraUpdatesH : Req → HOracle → HResult := wrapCatch checkNitraUpdatesCore

/-- Handler for `/nitra/update-nitra`. -/
def updateNitraH : Req → HOracle → HResult := wrapCatch updateNitraCore

/-- Handler for `/nitra/update-comfyui`. -/
def updateComfyuiH : Req → HOracle → HResult := wrapCatch updateComfyuiCore

/-- Handler for `/nitra/restart`. -/
def restartH : Req → HOracle → HResult := wrapCatch restartCore

/-- Handler for `/nitra/queue/reset` (no try/except). -/
def resetQueueH : Req → HOracle → HResult := wrapNone resetQueueCore

/-- Handler for `/nitra/queue/status` (no try/except). -/
def queueStatusH : Req → HOracle → HResult := wrapNone queueStatusCore

/-- Handler for `/nitra/install/package`. -/
def installPackageH : Req → HOracle → HResult := wrapCatch installPackageCore

/-- Handler for `/nitra/contact`. -/
def proxyContactH : Req → HOracle → HResult := wrapCatch proxyContactCore

/-- Handler for GET `/nitra/user-config`. -/
def getUserConfigH : Req → HOracle → HResult := wrapCatch getUserConfigCore

/-- Handler for POST `/nitra/user-config`. -/
def saveUserConfigH : Req → HOracle → HResult := wrapCatch saveUserConfigCore

/-- Handler for `/nitra/device/identity`. -/
def getDeviceIdentityH : Req → HOracle → HResult := wrapCatch getDeviceIdentityCore

/-- Handler for `/nitra/debug/device-status`. -/
def debugDeviceStatusH : Req → HOracle → HResult := wrapCatch debugDeviceStatusCore

/-- Handler for `/nitra/device/registrations` (guard before the try). -/
def listDeviceRegistrationsH : Req → HOracle → HResult :=
  wrapOk listDeviceRegistrationsCore

/-- Handler for `/nitra/device/register` (guard before the try). -/
def registerDeviceH : Req → HOracle → HResult := wrapOk registerDeviceCore

/-- Handler for `/nitra/telemetry/login` (guard before the try). -/
def telemetryLoginH : Req → HOracle → HResult := wrapOk telemetryLoginCore

/-- Handler for the second `/nitra/custom-nodes` registration (a verbatim
copy of the first, registered again at nitra_server.py 4164). -/
def getCustomNodes2H : Req → HOracle → HResult := wrapCatch catalogFetchCore

/-- Handler for `/nitra/node-mappings` (catch returns 200). -/
def getNodeMappingsH : Req → HOracle → HResult := wrapCatch200 getNodeMappingsCore

/-- All 34 route registrations, in source order. -/
def registeredRoutes : List (Req → HOracle → HResult) :=
  [getConfigH, checkVersionsH, getSubscriptionCheckH, workflowsMetadataH,
   modelsMetadataH, cancelExecutionH, executeScriptH, getUpdateStatusH,
   getWorkflowsH, getModelsH, getCustomNodesH, getWorkflowDetailsH, testRouteH,
   installWorkflowH, installModelsH, checkExistingModelsH,
   checkInstalledCustomNodesH, checkNitraUpdatesH, updateNitraH, updateComfyuiH,
   restartH, resetQueueH, queueStatusH, installPackageH, proxyContactH,
   getUserConfigH, saveUserConfigH, getDeviceIdentityH, debugDeviceStatusH,
   listDeviceRegistrationsH, registerDeviceH, telemetryLoginH, getCustomNodes2H,
   getNodeMappingsH]

/-- The routes that reject both a bad prefix and an empty token with 401. -/
def routesFullGuard : List (Req → HOracle → HResult) :=
  [getSubscriptionCheckH, getUpdateStatusH, getWorkflowsH, getModelsH,
   getCustomNodesH, getWorkflowDetailsH, installWorkflowH, installModelsH,
   checkExistingModelsH, getCustomNodes2H]

/-- The routes that reject only a missing `Bearer ` prefix (an empty token
passes their guard). -/
def routesPrefixGuard : List (Req → HOracle → HResult) :=
  [workflowsMetadataH, modelsMetadataH, checkInstalledCustomNodesH,
   debugDeviceStatusH, listDeviceRegistrationsH, registerDeviceH,
   telemetryLoginH]

/-- The routes that never look at the Authorization header (save_user_config
is excluded: it never rejects on the header but does read it to decide on an
upstream folder-discovery call). -/
def routesNoAuthCheck : List (Req → HOracle → HResult) :=
  [getConfigH, checkVersionsH, cancelExecutionH, testRouteH,
   checkNitraUpdatesH, updateNitraH, updateComfyuiH, restartH, resetQueueH,
   queueStatusH, proxyContactH, getUserConfigH, getDeviceIdentityH,
   getNodeMappingsH]

/-- The four handlers with no try/except around their body. -/
def routesNoTryExcept : List (Req → HOracle → HResult) :=
  [getConfigH, testRouteH, resetQueueH, queueStatusH]

/-- The thirty handlers whose body is protected by a try/except. -/
def routesBlanketCatch : List (Req → HOracle → HResult) :=
  [checkVersionsH, getSubscriptionCheckH, workflowsMetadataH, modelsMetadataH,
   cancelExecutionH, executeScriptH, getUpdateStatusH, getWorkflowsH,
   getModelsH, getCustomNodesH, getWorkflowDetailsH, installWorkflowH,
   installModelsH, checkExistingModelsH, checkInstalledCustomNodesH,
   checkNitraUpdatesH, updateNitraH, updateComfyuiH, restartH, installPackageH,
   proxyContactH, getUserConfigH, saveUserConfigH, getDeviceIdentityH,
   debugDeviceStatusH, listDeviceRegistrationsH, registerDeviceH,
   telemetryLoginH, getCustomNodes2H, getNodeMappingsH]

/-- The handlers whose whole body (guard included) sits in a catch-to-500
try/except. -/
def routesCatch500 : List (Req → HOracle → HResult) :=
  [checkVersionsH, getSubscriptionCheckH, workflowsMetadataH, modelsMetadataH,
   cancelExecutionH, executeScriptH, getUpdateStatusH, getWorkflowsH,
   getModelsH, getCustomNodesH, getWorkflowDetailsH, installWorkflowH,
   installModelsH, checkExistingModelsH, checkInstalledCustomNodesH,
   checkNitraUpdatesH, updateNitraH, updateComfyuiH, restartH, installPackageH,
   proxyContactH, getUserConfigH, saveUserConfigH, getDeviceIdentityH,
   debugDeviceStatusH, getCustomNodes2H]

/-- The handlers whose guard precedes the try but whose body catches to 500. -/
def routesGuardThenCatch : List (Req → HOracle → HResult) :=
  [listDeviceRegistrationsH, registerDeviceH, telemetryLoginH]

/-- A result that is an error response (a normally returned 4xx/5xx). -/
def isErrResp (r : HResult) : Prop :=
  ∃ resp, r.outcome = Except.ok resp ∧ 400 ≤ resp.status

/-- C2 as stated: every registered route rejects a request with a bad or
empty bearer token with an error response and performs no side effect. -/
def c2ClaimProp : Prop :=
  ∀ h ∈ registeredRoutes, ∀ req o, badAuth req.auth = true →
    isErrResp (h req o) ∧ (h req o).effects = []

/-- C9 as stated: every registered route handler catches all internal
exceptions (no handler invocation ever lets one escape). -/
def c9ClaimProp : Prop :=
  ∀ h ∈ registeredRoutes, ∀ req o, (h req o).outcome ≠ Except.error ()

/-- A request with no Authorization header at all. -/
def noAuthReq : Req :=
  { auth := "", queryEmail := "", bodyOk := true, bodyFieldsOk := true,
    hasBasePath := false, bodyUserId := some "u1", bodyUserEmail := some "e@x.io",
    bodyCategory := some "triton", bodyWorkflowIds := ["w1"],
    bodyModelIds := ["m1"], pathWorkflowId := "w1", activeUpdates := [] }

/-- A benign oracle: nothing raises, upstream answers 200, device registered. -/
def benignOracle : HOracle :=
  { bodyRaises := false, upstreamRaises := false, upstreamStatus := 200,
    deviceResult := DeviceRes.ok, verifyResult := VerifyRes.ok,
    jwtDecode := fun _ => none, comfyRootOk := true, gitPullOk := true,
    installerOk := true, fsWriteOk := true }

/-- The benign oracle with one unexpected exception injected into the body. -/
def bodyFailOracle : HOracle :=
  { bodyRaises := true, upstreamRaises := false, upstreamStatus := 200,
    deviceResult := DeviceRes.ok, verifyResult := VerifyRes.ok,
    jwtDecode := fun _ => none, comfyRootOk := true, gitPullOk := true,
    installerOk := true, fsWriteOk := true }

theorem wrapCatch_ne_error (core : Req → HOracle → RespE) (req : Req) (o : HOracle) :
    (wrapCatch core req o).outcome ≠ Except.error () := by
  unfold wrapCatch
  split_ifs <;> simp

theorem wrapCatch200_ne_error (core : Req → HOracle → RespE) (req : Req) (o : HOracle) :
    (wrapCatch200 core req o).outcome ≠ Except.error () := by
  unfold wrapCatch200
  split_ifs <;> simp

theorem wrapOk_ne_error (core : Req → HOracle → RespE) (req : Req) (o : HOracle) :
    (wrapOk core req o).outcome ≠ Except.error () := by
  simp [wrapOk]

theorem wrapNone_raises (core : Req → HOracle → RespE) (req : Req) (o : HOracle)
    (h : o.bodyRaises = true) : (wrapNone core req o).outcome = Except.error () := by
  simp [wrapNone, h]

theorem wrapCatch_raises (core : Req → HOracle → RespE) (req : Req) (o : HOracle)
    (h : o.bodyRaises = true) :
    (wrapCatch core req o).outcome = Except.ok { status := 500 } := by
  simp [wrapCatch, h]

theorem wrapCatch200_raises (core : Req → HOracle → RespE) (req : Req) (o : HOracle)
    (h : o.bodyRaises = true) :
    (wrapCatch200 core req o).outcome = Except.ok { status := 200 } := by
  simp [wrapCatch200, h]

/-- C2 counterexample: the claim fails on the code — `/nitra/config` (the
first registered route) performs no bearer validation at all: a request
without any Authorization header gets a 200 response. -/
theorem c2_route_auth_counterexample : ¬ c2ClaimProp := by
  intro h
  have h1 := h getConfigH (by simp [registeredRoutes]) noAuthReq benignOracle (by decide)
  obtain ⟨⟨resp, hok, hge⟩, _⟩ := h1
  have hr : resp = { status := 200 } := by
    have h2 : Except.ok resp = Except.ok { status := 200 : Resp } := hok.symm
    exact (Except.ok.injEq _ _).mp h2
  rw [hr] at hge
  simp at hge

/-- C2 amended: absent an unrelated internal exception, the ten
full-guard routes reject a bad-prefix or empty bearer token with a 401 and
no side effects; the seven prefix-only routes likewise reject a missing
prefix (but not an empty token); install-package registers the shutdown
hook — a global state change — before rejecting with 401; execute-script
answers 500 on a malformed body before any auth check, rejects a missing
prefix with a 401 only after body and root checks, and with a prefix in
place runs the upstream verification regardless of the token being empty;
and the fourteen unguarded routes ignore the Authorization header entirely
(user-config POST never rejects on it, though its upstream folder-discovery
call depends on it). -/
theorem c2_amended_auth_guards (req : Req) (o : HOracle) (hbr : o.bodyRaises = false) :
    (badAuth req.auth = true →
      ∀ h ∈ routesFullGuard,
        (h req o).outcome = Except.ok { status := 401 } ∧ (h req o).effects = [])
    ∧ (pyStartsWith req.auth "Bearer " = false →
      ∀ h ∈ routesPrefixGuard,
        (h req o).outcome = Except.ok { status := 401 } ∧ (h req o).effects = [])
    ∧ (badAuth req.auth = true →
        (installPackageH req o).outcome = Except.ok { status := 401 }
        ∧ (installPackageH req o).effects = [Effect.stateChange])
    ∧ (req.bodyOk = false →
        (executeScriptH req o).outcome = Except.ok { status := 500 })
    ∧ (req.bodyOk = true → o.comfyRootOk = true →
        pyStartsWith req.auth "Bearer " = false →
        (executeScriptH req o).outcome = Except.ok { status := 401 }
        ∧ (executeScriptH req o).effects = [])
    ∧ (req.bodyOk = true → o.comfyRootOk = true →
        pyStartsWith req.auth "Bearer " = true → pyTruthyOpt req.bodyUserId = true →
        Effect.upstreamCall ∈ (executeScriptH req o).effects)
    ∧ (∀ h ∈ routesNoAuthCheck, ∀ a, h req o = h { req with auth := a } o)
    ∧ (∀ a, (saveUserConfigH req o).outcome
        = (saveUserConfigH { req with auth := a } o).outcome) := by
  refine ⟨?_, ?_, ?_, ?_, ?_, ?_, ?_, ?_⟩
  · intro hbad h hmem
    simp only [routesFullGuard, List.mem_cons, List.not_mem_nil, or_false] at hmem
    simp only [badAuth, Bool.or_eq_true, Bool.not_eq_eq_eq_not, Bool.not_true,
      decide_eq_true_eq] at hbad
    rcases hbad with hpf | hd
    · rcases hmem with rfl | rfl | rfl | rfl | rfl | rfl | rfl | rfl | rfl | rfl <;>
        constructor <;>
          simp [getSubscriptionCheckH, getUpdateStatusH, getWorkflowsH, getModelsH,
            getCustomNodesH, getWorkflowDetailsH, installWorkflowH, installModelsH,
            checkExistingModelsH, getCustomNodes2H, wrapCatch, hbr, rE,
            getSubscriptionCheckCore, getUpdateStatusCore, catalogFetchCore,
            getWorkflowDetailsCore, installWorkflowCore, installModelsCore,
            checkExistingModelsCore, getUpdateStatus, hpf]
    · by_cases hp : pyStartsWith req.auth "Bearer " = true
      · rcases hmem with rfl | rfl | rfl | rfl | rfl | rfl | rfl | rfl | rfl | rfl <;>
          constructor <;>
            simp [getSubscriptionCheckH, getUpdateStatusH, getWorkflowsH, getModelsH,
              getCustomNodesH, getWorkflowDetailsH, installWorkflowH, installModelsH,
              checkExistingModelsH, getCustomNodes2H, wrapCatch, hbr, rE,
              getSubscriptionCheckCore, getUpdateStatusCore, catalogFetchCore,
              getWorkflowDetailsCore, installWorkflowCore, installModelsCore,
              checkExistingModelsCore, getUpdateStatus, hp, hd]
      · have hp2 : pyStartsWith req.auth "Bearer " = false := by
          cases hb : pyStartsWith req.auth "Bearer "
          · rfl
          · exact absurd hb hp
        rcases hmem with rfl | rfl | rfl | rfl | rfl | rfl | rfl | rfl | rfl | rfl <;>
          constructor <;>
            simp [getSubscriptionCheckH, getUpdateStatusH, getWorkflowsH, getModelsH,
              getCustomNodesH, getWorkflowDetailsH, installWorkflowH, installModelsH,
              checkExistingModelsH, getCustomNodes2H, wrapCatch, hbr, rE,
              getSubscriptionCheckCore, getUpdateStatusCore, catalogFetchCore,
              getWorkflowDetailsCore, installWorkflowCore, installModelsCore,
              checkExistingModelsCore, getUpdateStatus, hp2]
  · intro hp2 h hmem
    simp only [routesPrefixGuard, List.mem_cons, List.not_mem_nil, or_false] at hmem
    rcases hmem with rfl | rfl | rfl | rfl | rfl | rfl | rfl <;>
      constructor <;>
        simp [workflowsMetadataH, modelsMetadataH, checkInstalledCustomNodesH,
          debugDeviceStatusH, listDeviceRegistrationsH, registerDeviceH,
          telemetryLoginH, wrapCatch, wrapOk, hbr, rE, metadataFetchCore,
          checkInstalledCustomNodesCore, debugDeviceStatusCore,
          listDeviceRegistrationsCore, registerDeviceCore, telemetryLoginCore, hp2]
  · intro hbad
    simp only [badAuth, Bool.or_eq_true, Bool.not_eq_eq_eq_not, Bool.not_true,
      decide_eq_true_eq] at hbad
    rcases hbad with hpf | hd
    · constructor <;> simp [installPackageH, wrapCatch, hbr, installPackageCore, rE, hpf]
    · by_cases hp : pyStartsWith req.auth "Bearer " = true
      · constructor <;>
          simp [installPackageH, wrapCatch, hbr, installPackageCore, rE, hp, hd]
      · have hp2 : pyStartsWith req.auth "Bearer " = false := by
          cases hb : pyStartsWith req.auth "Bearer "
          · rfl
          · exact absurd hb hp
        constructor <;>
          simp [installPackageH, wrapCatch, hbr, installPackageCore, rE, hp2]
  · intro hb
    simp [executeScriptH, wrapCatch, hbr, executeScriptCore, rE, hb]
  · intro hb hroot hpf
    constructor <;> simp [executeScriptH, wrapCatch, hbr, executeScriptCore, rE,
      hb, hroot, hpf]
  · intro hb hroot hp hu
    simp only [executeScriptH, wrapCatch, hbr, Bool.false_eq_true, if_false,
      executeScriptCore, hb, hroot, hp, hu, if_true]
    cases o.verifyResult <;> (simp [rE]; try (split_ifs <;> simp))
  · intro h hmem a
    simp only [routesNoAuthCheck, List.mem_cons, List.not_mem_nil, or_false] at hmem
    rcases hmem with rfl | rfl | rfl | rfl | rfl | rfl | rfl | rfl | rfl | rfl | rfl | rfl | rfl | rfl <;> rfl
  · intro a
    simp only [saveUserConfigH]
    unfold wrapCatch saveUserConfigCore
    cases hbr2 : o.bodyRaises <;> cases hb : req.bodyOk <;>
      cases hf : req.bodyFieldsOk <;> cases hw : o.fsWriteOk <;>
        simp [hbr2, hb, hf, hw, rE]

/-- Witness for the amended C2 on a concrete header-less request: a
full-guard route and a prefix-only route answer 401, install-package still
mutates hook state, and an unguarded route ignores the header entirely. -/
theorem c2_amended_auth_guards_witness :
    benignOracle.bodyRaises = false
    ∧ badAuth "" = true
    ∧ pyStartsWith "" "Bearer " = false
    ∧ (installWorkflowH noAuthReq benignOracle).outcome = Except.ok { status := 401 }
    ∧ (workflowsMetadataH noAuthReq benignOracle).outcome = Except.ok { status := 401 }
    ∧ (installPackageH noAuthReq benignOracle).effects = [Effect.stateChange]
    ∧ restartH noAuthReq benignOracle
        = restartH { noAuthReq with auth := "Bearer tok" } benignOracle := by
  refine ⟨rfl, by decide, by decide, ?_, ?_, ?_, ?_⟩
  · exact (((c2_amended_auth_guards noAuthReq benignOracle rfl).1 (by decide))
      installWorkflowH (by simp [routesFullGuard])).1
  · exact (((c2_amended_auth_guards noAuthReq benignOracle rfl).2.1 (by decide))
      workflowsMetadataH (by simp [routesPrefixGuard])).1
  · exact ((c2_amended_auth_guards noAuthReq benignOracle rfl).2.2.1 (by decide)).2
  · exact ((c2_amended_auth_guards noAuthReq benignOracle rfl).2.2.2.2.2.2.1
      restartH (by simp [routesNoAuthCheck])) "Bearer tok"

/-- C9 counterexample: the claim fails on the code — `queue_status` has no
try/except around its body, so an unexpected exception raised there escapes
the handler instead of becoming a response. -/
theorem c9_exception_counterexample : ¬ c9ClaimProp := by
  intro h
  have h1 := h queueStatusH (by simp [registeredRoutes]) noAuthReq bodyFailOracle
  exact h1 rfl

/-- C9 amended: the thirty handlers whose body is inside a blanket
try/except never let an exception escape; the four without one (config,
test, queue reset, queue status) propagate an injected body exception; the
twenty-six whose whole body (guard included) is caught answer 500 on it,
the three guard-before-try device/telemetry routes answer 500 once past
their guard, and node-mappings answers an empty 200 instead of a 500. -/
theorem c9_amended_blanket_catch (req : Req) (o : HOracle) :
    (∀ h ∈ routesBlanketCatch, (h req o).outcome ≠ Except.error ())
    ∧ (o.bodyRaises = true →
        ∀ h ∈ routesNoTryExcept, (h req o).outcome = Except.error ())
    ∧ (o.bodyRaises = true →
        ∀ h ∈ routesCatch500, (h req o).outcome = Except.ok { status := 500 })
    ∧ (o.bodyRaises = true → req.auth ≠ "" →
        pyStartsWith req.auth "Bearer " = true →
        ∀ h ∈ routesGuardThenCatch, (h req o).outcome = Except.ok { status := 500 })
    ∧ (o.bodyRaises = true →
        (getNodeMappingsH req o).outcome = Except.ok { status := 200 }) := by
  refine ⟨?_, ?_, ?_, ?_, ?_⟩
  · intro h hmem
    simp only [routesBlanketCatch, List.mem_cons, List.not_mem_nil, or_false] at hmem
    rcases hmem with rfl | rfl | rfl | rfl | rfl | rfl | rfl | rfl | rfl | rfl | rfl | rfl | rfl | rfl | rfl | rfl | rfl | rfl | rfl | rfl | rfl | rfl | rfl | rfl | rfl | rfl | rfl | rfl | rfl | rfl <;>
      first
        | exact wrapCatch_ne_error _ _ _
        | exact wrapCatch200_ne_error _ _ _
        | exact wrapOk_ne_error _ _ _
  · intro hbr h hmem
    simp only [routesNoTryExcept, List.mem_cons, List.not_mem_nil, or_false] at hmem
    rcases hmem with rfl | rfl | rfl | rfl <;> exact wrapNone_raises _ _ _ hbr
  · intro hbr h hmem
    simp only [routesCatch500, List.mem_cons, List.not_mem_nil, or_false] at hmem
    rcases hmem with rfl | rfl | rfl | rfl | rfl | rfl | rfl | rfl | rfl | rfl | rfl | rfl | rfl | rfl | rfl | rfl | rfl | rfl | rfl | rfl | rfl | rfl | rfl | rfl | rfl | rfl <;> exact wrapCatch_raises _ _ _ hbr
  · intro hbr hne hp h hmem
    simp only [routesGuardThenCatch, List.mem_cons, List.not_mem_nil, or_false] at hmem
    rcases hmem with rfl | rfl | rfl <;>
      simp [listDeviceRegistrationsH, registerDeviceH, telemetryLoginH, wrapOk,
        listDeviceRegistrationsCore, registerDeviceCore, telemetryLoginCore,
        rE, hbr, hne, hp]
  · intro hbr
    exact wrapCatch200_raises _ _ _ hbr

/-- Witness for the amended C9: with an injected body exception, the
unguarded queue-status route propagates, subscription-check answers 500,
node-mappings answers 200; and install-workflow never errors. -/
theorem c9_amended_blanket_catch_witness :
    bodyFailOracle.bodyRaises = true
    ∧ (queueStatusH noAuthReq bodyFailOracle).outcome = Except.error ()
    ∧ (getSubscriptionCheckH noAuthReq bodyFailOracle).outcome
        = Except.ok { status := 500 }
    ∧ (getNodeMappingsH noAuthReq bodyFailOracle).outcome
        = Except.ok { status := 200 }
    ∧ (installWorkflowH noAuthReq benignOracle).outcome ≠ Except.error () := by
  refine ⟨rfl, ?_, ?_, ?_, ?_⟩
  · exact ((c9_amended_blanket_catch noAuthReq bodyFailOracle).2.1 rfl)
      queueStatusH (by simp [routesNoTryExcept])
  · exact ((c9_amended_blanket_catch noAuthReq bodyFailOracle).2.2.1 rfl)
      getSubscriptionCheckH (by simp [routesCatch500])
  · exact (c9_amended_blanket_catch noAuthReq bodyFailOracle).2.2.2.2 rfl
  · exact (c9_amended_blanket_catch noAuthReq benignOracle).1
      installWorkflowH (by simp [routesBlanketCatch])

/-! ## C10: device-state file never holds the device token
(`_write_device_state` nitra_server.py 3452-3477, with the secure-token
helpers 3480-3561 and the register-device route 4044-4116)

The on-disk `device_state.json` is a string dictionary; the OS keyring is a
second dictionary keyed by `secure_entry_id`; `_cached_device_token` is the
in-process cache.  All writes to the JSON file in the source go through
`_write_device_state`. -/

/-- Lookup in a Python string dict. -/
def dictGet : List (String × String) → String → Option String
  | [], _ => none
  | kv :: rest, k => if kv.1 = k then some kv.2 else dictGet rest k

/-- Python `dict.pop(k, None)`: drop every binding of `k`. -/
def dictPop : List (String × String) → String → List (String × String)
  | [], _ => []
  | kv :: rest, k => if kv.1 = k then dictPop rest k else kv :: dictPop rest k

/-- Python `d[k] = v`. -/
def dictSet (d : List (String × String)) (k v : String) : List (String × String) :=
  dictPop d k ++ [(k, v)]

/-- Python `a or b` over optional strings (`None` and `''` are falsy). -/
def optOr (a b : Option String) : Option String :=
  if pyTruthyOpt a then a else b

/-- State owned by the device-token persistence code. -/
structure DevState where
  jsonFile : Option (List (String × String))
  keyringStore : List (String × String)
  cachedToken : Option String

/-- `_read_device_state`: a missing file reads as the empty dict. -/
def readDeviceState (s : DevState) : List (String × String) :=
  s.jsonFile.getD []

/-- `_get_secure_entry_id`: the stored secure entry id, else the device id. -/
def getSecureEntryIdD (st : List (String × String)) : Option String :=
  optOr (dictGet st "secure_entry_id") (dictGet st "device_id")

/-- `_delete_secure_device_token`: drop the keyring entry and the cache
(only when the entry id is truthy, as in the source). -/
def deleteSecureToken (entryId : Option String) (s : DevState) : DevState :=
  if pyTruthyOpt entryId then
    { s with keyringStore := dictPop s.keyringStore (entryId.getD ""),
             cachedToken := none }
  else s

/-- `_store_device_token_secure`: cache the token, then persist it in the
keyring when an entry id is available; returns whether it was persisted. -/
def storeDeviceTokenSecure (entryId token : Option String) (s : DevState) :
    DevState × Bool :=
  if pyTruthyOpt token then
    let s1 := { s with cachedToken := token }
    if pyTruthyOpt entryId then
      ({ s1 with keyringStore :=
          dictSet s1.keyringStore (entryId.getD "") (token.getD "") }, true)
    else (s1, false)
  else (s, false)

/-- The sanitization `_write_device_state` applies before serializing: pop
`device_token`, and default `secure_entry_id` to `device_id`. -/
def sanitizeDeviceState (data : List (String × String)) : List (String × String) :=
  let s0 := dictPop data "device_token"
  if dictGet s0 "secure_entry_id" = none ∧ pyTruthyOpt (dictGet s0 "device_id") then
    dictSet s0 "secure_entry_id" ((dictGet s0 "device_id").getD "")
  else s0

/-- Embedding of `_write_device_state`: falsy data clears the state (keyring
entry, cache, and file); otherwise the sanitized dict is written. -/
def writeDeviceState (data : List (String × String)) (s : DevState) : DevState :=
  if data = [] then
    let eid := getSecureEntryIdD (readDeviceState s)
    let s1 := deleteSecureToken eid s
    { s1 with cachedToken := none, jsonFile := none }
  else { s with jsonFile := some (sanitizeDeviceState data) }

/-- Embedding of `_get_device_token`: cached token first; then the legacy
`device_token` field of the file (migrated into the keyring and purged from
the file via `_write_device_state`); else the keyring entry. -/
def getDeviceToken (s : DevState) : DevState × Option String :=
  if pyTruthyOpt s.cachedToken then (s, s.cachedToken)
  else
    let st := readDeviceState s
    let legacy := dictGet st "device_token"
    if pyTruthyOpt legacy then
      let eid := optOr (getSecureEntryIdD st)
        (optOr (dictGet st "fingerprint_hash") (some "nitra-device"))
      let s1 := (storeDeviceTokenSecure eid legacy s).1
      let st2 := dictPop st "device_token"
      let st3 := if pyTruthyOpt eid then dictSet st2 "secure_entry_id" (eid.getD "")
        else st2
      (writeDeviceState st3 s1, legacy)
    else
      let eid := getSecureEntryIdD st
      if pyTruthyOpt eid then
        let tok := dictGet s.keyringStore (eid.getD "")
        ({ s with cachedToken := tok }, tok)
      else (s, none)

/-- One operation of the device-persistence interface. -/
inductive DevOp where
  | write (data : List (String × String))
  | storeToken (entryId token : Option String)
  | deleteToken (entryId : Option String)
  | getToken

/-- Apply one operation to the state. -/
def applyDevOp (op : DevOp) (s : DevState) : DevState :=
  match op with
  | DevOp.write data => writeDeviceState data s
  | DevOp.storeToken eid tok => (storeDeviceTokenSecure eid tok s).1
  | DevOp.deleteToken eid => deleteSecureToken eid s
  | DevOp.getToken => (getDeviceToken s).1

/-- Apply a sequence of operations. -/
def applyDevOps : List DevOp → DevState → DevState
  | [], s => s
  | op :: rest, s => applyDevOps rest (applyDevOp op s)

/-- The on-disk file holds no `device_token` field. -/
def fileClean (s : DevState) : Prop :=
  ∀ d, s.jsonFile = some d → dictGet d "device_token" = none

theorem dictGet_pop_self (d : List (String × String)) (k : String) :
    dictGet (dictPop d k) k = none := by
  induction d with
  | nil => rfl
  | cons kv rest ih =>
      by_cases h : kv.1 = k <;> simp [dictPop, dictGet, h, ih]

theorem dictGet_append_none (l1 l2 : List (String × String)) (k : String)
    (h1 : dictGet l1 k = none) (h2 : dictGet l2 k = none) :
    dictGet (l1 ++ l2) k = none := by
  induction l1 with
  | nil => simpa using h2
  | cons kv rest ih =>
      by_cases h : kv.1 = k
      · simp [dictGet, h] at h1
      · simp only [dictGet, h, if_false, List.cons_append] at h1 ⊢
        simp [dictGet, h]
        exact ih h1

theorem sanitize_no_device_token (data : List (String × String)) :
    dictGet (sanitizeDeviceState data) "device_token" = none := by
  unfold sanitizeDeviceState
  by_cases hc : dictGet (dictPop data "device_token") "secure_entry_id" = none
      ∧ pyTruthyOpt (dictGet (dictPop data "device_token") "device_id") = true
  · rw [if_pos hc]
    unfold dictSet
    apply dictGet_append_none
    · have h0 := dictGet_pop_self data "device_token"
      have : ∀ l k k2, dictGet l k = none → dictGet (dictPop l k2) k = none := by
        intro l k k2 hl
        induction l with
        | nil => rfl
        | cons kv rest ih =>
            by_cases hk : kv.1 = k
            · simp [dictGet, hk] at hl
            · simp only [dictGet, hk, if_false] at hl
              by_cases hk2 : kv.1 = k2 <;> simp [dictPop, hk2, dictGet, hk, ih hl]
      exact this _ _ _ h0
    · simp [dictGet]
  · rw [if_neg hc]
    exact dictGet_pop_self data "device_token"

theorem writeDeviceState_clean (data : List (String × String)) (s : DevState) :
    fileClean (writeDeviceState data s) := by
  intro d hd
  unfold writeDeviceState at hd
  by_cases h : data = []
  · simp [h] at hd
  · simp only [h, if_neg, if_false] at hd
    have : d = sanitizeDeviceState data := by
      simpa using (Option.some.injEq _ _).mp hd.symm
    rw [this]
    exact sanitize_no_device_token data

theorem devOp_preserves_clean (op : DevOp) (s : DevState) (h : fileClean s) :
    fileClean (applyDevOp op s) := by
  cases op with
  | write data => exact writeDeviceState_clean data s
  | storeToken eid tok =>
      intro d hd
      unfold applyDevOp storeDeviceTokenSecure at hd
      by_cases ht : pyTruthyOpt tok = true <;>
        by_cases he : pyTruthyOpt eid = true <;>
          simp only [ht, he, if_pos, if_neg, if_true, if_false] at hd <;>
            exact h d hd
  | deleteToken eid =>
      intro d hd
      unfold applyDevOp deleteSecureToken at hd
      by_cases he : pyTruthyOpt eid = true <;>
        simp only [he, if_pos, if_neg, if_true, if_false] at hd <;>
          exact h d hd
  | getToken =>
      intro d hd
      unfold applyDevOp getDeviceToken at hd
      by_cases hc : pyTruthyOpt s.cachedToken = true
      · simp only [hc, if_true] at hd
        exact h d hd
      · simp only [hc, if_false] at hd
        by_cases hl : pyTruthyOpt (dictGet (readDeviceState s) "device_token") = true
        · simp only [hl, if_true] at hd
          exact writeDeviceState_clean _ _ d hd
        · simp only [hl, if_false] at hd
          by_cases he : pyTruthyOpt (getSecureEntryIdD (readDeviceState s)) = true <;>
            simp only [he, if_true, if_false] at hd <;>
              exact h d hd

/-- C10: `_write_device_state` always strips `device_token` before writing
(the file it leaves behind never holds the raw token), clearing the state
also deletes the keyring entry and drops the file, and the no-token-on-disk
property is preserved by every sequence of persistence operations. -/
theorem c10_device_token_not_persisted (s : DevState) (data : List (String × String)) :
    dictGet (sanitizeDeviceState data) "device_token" = none
    ∧ (data ≠ [] → (writeDeviceState data s).jsonFile = some (sanitizeDeviceState data))
    ∧ ((writeDeviceState [] s).jsonFile = none
        ∧ (pyTruthyOpt (getSecureEntryIdD (readDeviceState s)) = true →
            dictGet (writeDeviceState [] s).keyringStore
              ((getSecureEntryIdD (readDeviceState s)).getD "") = none))
    ∧ (fileClean s → ∀ ops, fileClean (applyDevOps ops s)) := by
  refine ⟨sanitize_no_device_token data, ?_, ⟨?_, ?_⟩, ?_⟩
  · intro hne
    simp [writeDeviceState, hne]
  · simp [writeDeviceState, deleteSecureToken]
  · intro he
    simp [writeDeviceState, deleteSecureToken, he, dictGet_pop_self]
  · intro hcl ops
    induction ops generalizing s with
    | nil => exact hcl
    | cons op rest ih =>
        exact ih _ (devOp_preserves_clean op s hcl)

/-- Witness for C10 on a concrete legacy state whose file still holds a
plaintext token: one write strips it, and clearing removes the keyring entry. -/
theorem c10_device_token_not_persisted_witness :
    sanitizeDeviceState [("device_token", "secret"), ("device_id", "dev1")]
        = [("device_id", "dev1"), ("secure_entry_id", "dev1")]
    ∧ ([("device_token", "secret"), ("device_id", "dev1")]
        : List (String × String)) ≠ []
    ∧ (writeDeviceState [("device_token", "secret"), ("device_id", "dev1")]
        { jsonFile := none, keyringStore := [], cachedToken := none }).jsonFile
        = some [("device_id", "dev1"), ("secure_entry_id", "dev1")]
    ∧ pyTruthyOpt (getSecureEntryIdD (readDeviceState
        { jsonFile := some [("secure_entry_id", "dev1")],
          keyringStore := [("dev1", "secret")], cachedToken := none })) = true
    ∧ dictGet (writeDeviceState []
        { jsonFile := some [("secure_entry_id", "dev1")],
          keyringStore := [("dev1", "secret")], cachedToken := none }).keyringStore
        "dev1" = none := by
  refine ⟨by decide, by decide, ?_, by decide, ?_⟩
  · have h := (c10_device_token_not_persisted
      { jsonFile := none, keyringStore := [], cachedToken := none }
      [("device_token", "secret"), ("device_id", "dev1")]).2.1 (by decide)
    rw [h]
    decide
  · have h := (c10_device_token_not_persisted
      { jsonFile := some [("secure_entry_id", "dev1")],
        keyringStore := [("dev1", "secret")], cachedToken := none }
      [("device_token", "secret"), ("device_id", "dev1")]).2.2.1.2 (by decide)
    simpa using h

end NitraSrv
